import Mathlib

/-!
# Deepstall landing controller and landing dispatcher

A shallow embedding of `ArduPlane/deepstall.cpp` (class `DeepStall`) and of the
dispatch functions of `libraries/AP_Landing/AP_Landing.cpp`.

Conventions of the embedding

* C++ `float`/`double` values are elements of an arbitrary linearly ordered
  field `F` with a floor function (`ℚ` for evaluation, `ℝ` for statements over
  the reals).  Rounding, infinities and NaN are not represented; in a field
  `x / 0 = 0`.
* `int32_t` values are `Int` (signed overflow is undefined behaviour in C++ and
  is not represented); the `uint32_t` millisecond clock is a `Nat` and the
  subtraction on it is taken modulo `2 ^ 32`.
* Member functions take the object as an explicit argument and return the
  updated object; reference parameters that are written are returned.
* Library functions whose code is not part of the sources at hand (libm,
  `AP_Math` location helpers) are fields of an environment record `Env`.
* `GCS_MAVLINK::send_statustext_all` only emits telemetry text and is omitted.
-/

/-! ## Data model -/

/-- Stages of the deepstall state machine, in the order of the `switch` in
`DeepStall::getApproachWaypoint`. -/
inductive STAGE where
  | DEEPSTALL_FLY_TO_LOITER
  | DEEPSTALL_LOITER
  | DEEPSTALL_APPROACH
  | DEEPSTALL_LAND
  deriving DecidableEq, Repr

/-- Position of a stage in the progression
`FLY_TO_LOITER < LOITER < APPROACH < LAND`. -/
def STAGE.rank : STAGE → Nat
  | .DEEPSTALL_FLY_TO_LOITER => 0
  | .DEEPSTALL_LOITER => 1
  | .DEEPSTALL_APPROACH => 2
  | .DEEPSTALL_LAND => 3

/-- Geographic point `struct Location`: latitude and longitude in 1e-7 degrees,
altitude in centimetres. -/
structure Location where
  lat : Int
  lng : Int
  alt : Int
  deriving DecidableEq, Repr

/-- Two-component vector `Vector2f`. -/
structure Vector2f (F : Type) where
  x : F
  y : F
  deriving DecidableEq

/-- Three-component vector `Vector3f`. -/
structure Vector3f (F : Type) where
  x : F
  y : F
  z : F
  deriving DecidableEq

/-- The part of `AP_Navigation` that `getApproachWaypoint` reads. -/
structure AP_Navigation where
  reached_loiter_target : Bool
  target_bearing_cd : Int
  deriving DecidableEq

/-- Library functions used by `deepstall.cpp` whose code is not among the
sources: libm (`cos`, `sin`, `acos`, `asin`, `atan2`, `sqrt`, the constant
`M_PI`) and the `AP_Math` helpers. -/
structure Env (F : Type) where
  pi : F
  cos : F → F
  sin : F → F
  acos : F → F
  asin : F → F
  atan2 : F → F → F
  sqrt : F → F
  wrap_PI : F → F
  wrap_180_cd : Int → Int
  get_distance : Location → Location → F
  get_bearing_cd : Location → Location → Int
  location_passed_point : Location → Location → Location → Bool
  location_update : Location → F → F → Location
  location_diff : Location → Location → Vector2f F

/-- State of the yaw-rate PID controller (`PIDController`, spec section 4.1). -/
structure PIDController (F : Type) where
  kp : F
  ki : F
  kd : F
  ilim : F
  integrator : F
  prev_error : F
  deriving DecidableEq

/-- The user-settable parameters of `DeepStall::var_info`. -/
structure DeepstallParameters (F : Type) where
  enable : Int
  tcon : F
  ds_a : F
  ds_b : F
  l1_i : F
  slew_speed : F
  approach_extension : F
  l1_period : F
  approach_airspeed_cm : F
  elevator : F
  kp : F
  ki : F
  kd : F
  ilim : F
  yaw_rate_limit : F
  controller_handoff_airspeed_cm : F
  descent_speed : F
  forward_speed : F
  deriving DecidableEq

/-- The object state of class `DeepStall`: its parameters and the members
assigned in `deepstall.cpp`. -/
structure DeepStall (F : Type) where
  params : DeepstallParameters F
  YawRateController : PIDController F
  rCmd : F
  targetHeading : F
  targetTrack : F
  _last_t : Nat
  stage : STAGE
  ready : Bool
  loiter_sum_cd : Int
  old_target_bearing_cd : Int
  l1_xtrack_i : F
  landing_point : Location
  extended_approach : Location
  loiter_exit : Location
  loiter : Location
  deriving DecidableEq

section Model

variable {F : Type} [LinearOrderedField F] [FloorRing F]

/-! ## Helper macros and math -/

/-- The macro `MAX(a, b)`. -/
def MAX (a b : F) : F := if a > b then a else b

/-- The macro `CLAMP(x, lo, hi)`. -/
def CLAMP (x lo hi : F) : F := if x < lo then lo else if x > hi then hi else x

/-- Modelled from the spec: `constrain_float` of `AP_Math` is not among the
sources; the spec describes its use as clamping to the given bounds. -/
def constrain_float (amt low high : F) : F :=
  if amt < low then low else if amt > high then high else amt

/-- The conversion `radians(deg)`, degrees to radians. -/
def radians (E : Env F) (deg : F) : F := deg * (E.pi / 180)

/-- The operator `Vector2f::length`. -/
def Vector2f.length (E : Env F) (v : Vector2f F) : F := E.sqrt (v.x * v.x + v.y * v.y)

/-- The operator `Vector2f::operator*`, the dot product. -/
def Vector2f.dot (v w : Vector2f F) : F := v.x * w.x + v.y * w.y

/-- The operator `Vector2f::operator%`, the cross product. -/
def Vector2f.cross (v w : Vector2f F) : F := v.x * w.y - v.y * w.x

/-- The operator `Vector2f::normalize`, division of both components by the length. -/
def Vector2f.normalize (E : Env F) (v : Vector2f F) : Vector2f F :=
  ⟨v.x / v.length E, v.y / v.length E⟩

/-- Subtraction of `uint32_t` values, modulo `2 ^ 32`. -/
def u32sub (a b : Nat) : Nat := (a % 4294967296 + 4294967296 - b % 4294967296) % 4294967296

/-! ## PIDController (spec section 4.1) -/

/-- Modelled from the spec: `PIDController::saturate` is not among the sources;
`saturate(value, lo, hi)` clamps. -/
def PIDController.saturate (v lo hi : F) : F :=
  if v < lo then lo else if v > hi then hi else v

/-- Modelled from the spec: `PIDController::wrap` is not among the sources;
`wrap(angle, lo, hi)` normalizes an angle into `[lo, hi]` by adding or
subtracting the range width as many times as needed. -/
def PIDController.wrap (v lo hi : F) : F :=
  if v > hi then v - (Int.ceil ((v - hi) / (hi - lo)) : F) * (hi - lo)
  else if v < lo then v + (Int.ceil ((lo - v) / (hi - lo)) : F) * (hi - lo)
  else v

/-- Modelled from the spec: the constructor `PIDController(kp, ki, kd)` is not
among the sources; it stores the gains and starts with no accumulated state. -/
def PIDController.new (kp ki kd : F) : PIDController F :=
  { kp := kp, ki := ki, kd := kd, ilim := 0, integrator := 0, prev_error := 0 }

/-- Modelled from the spec: `PIDController::setGains` is not among the sources. -/
def PIDController.setGains (c : PIDController F) (kp ki kd : F) : PIDController F :=
  { c with kp := kp, ki := ki, kd := kd }

/-- Modelled from the spec: `PIDController::setIntegralLimit` is not among the sources. -/
def PIDController.setIntegralLimit (c : PIDController F) (ilim : F) : PIDController F :=
  { c with ilim := ilim }

/-- Modelled from the spec: `PIDController::resetIntegrator` is not among the
sources; `reset_integrator()` zeroes accumulated state. -/
def PIDController.resetIntegrator (c : PIDController F) : PIDController F :=
  { c with integrator := 0 }

/-- Modelled from the spec: `PIDController::run` is not among the sources.
`run(dt_seconds, error)`: a step that is not positive or exceeds one second is
replaced by 0.01 s; the integrator accumulates `error * ki * dt` clamped to
`[-ilim, ilim]`; the output is `kp*error + integrator + kd*(error-prev_error)/dt`. -/
def PIDController.run (c : PIDController F) (dt error : F) : F × PIDController F :=
  let dt1 := if dt ≤ 0 ∨ dt > 1 then 1 / 100 else dt
  let i := PIDController.saturate (c.integrator + error * c.ki * dt1) (-c.ilim) c.ilim
  (c.kp * error + i + c.kd * (error - c.prev_error) / dt1,
    { c with integrator := i, prev_error := error })

/-! ## DeepStall (`ArduPlane/deepstall.cpp`) -/

/-- The defaults of the `var_info` table, installed by
`AP_Param::setup_object_defaults`. -/
def DeepstallParameters.defaults : DeepstallParameters F :=
  { enable := 0
    tcon := 2647 / 1000
    ds_a := -(1486634076 / 1000000000)
    ds_b := 1628549267 / 100000000
    l1_i := 5 / 100
    slew_speed := 250
    approach_extension := 100
    l1_period := 15
    approach_airspeed_cm := 1400
    elevator := 1200
    kp := 4
    ki := 5 / 10
    kd := 1 / 100
    ilim := 2 / 10
    yaw_rate_limit := 3 / 10
    controller_handoff_airspeed_cm := 900
    descent_speed := 6
    forward_speed := 10 }

/-- The constructor `DeepStall::DeepStall()`.  Members the constructor does not
assign keep the value they have in the raw object `mem`. -/
def DeepStall.construct (mem : DeepStall F) : DeepStall F :=
  { mem with
    YawRateController := (PIDController.new 0 0 0).setIntegralLimit 0
    rCmd := 0
    targetHeading := 0
    _last_t := 0
    stage := STAGE.DEEPSTALL_FLY_TO_LOITER
    ready := false
    params := DeepstallParameters.defaults }

/-- The member function `DeepStall::abort`. -/
def DeepStall.abort (s : DeepStall F) : DeepStall F :=
  { s with
    YawRateController :=
      (((s.YawRateController.setGains s.params.kp s.params.ki s.params.kd).setIntegralLimit
        s.params.ilim).resetIntegrator)
    stage := STAGE.DEEPSTALL_FLY_TO_LOITER
    ready := false
    _last_t := 0
    loiter_sum_cd := 0
    l1_xtrack_i := 0 }

/-- The member function `DeepStall::predictDistanceTraveled`; it returns the
predicted distance and the object, whose `forward_speed` it raises to the floor
`0.1`. -/
def DeepStall.predictDistanceTraveled (E : Env F) (s : DeepStall F) (wind : Vector3f F)
    (altitude : F) : F × DeepStall F :=
  let course := radians E s.targetHeading
  let forward_speed := MAX s.params.forward_speed (1 / 10)
  let s1 : DeepStall F := { s with params := { s.params with forward_speed := forward_speed } }
  let wind_vec : Vector2f F := ⟨wind.x, wind.y⟩
  let course_vec : Vector2f F := ⟨E.cos course, E.sin course⟩
  let stall_distance := s1.params.ds_a * wind_vec.length E + s1.params.ds_b
  let theta0 := E.acos (CLAMP
    (wind_vec.dot course_vec / (MAX (wind_vec.length E) (5 / 100) * course_vec.length E)) (-1) 1)
  let theta := theta0 * (if course_vec.cross wind_vec > 0 then -1 else 1)
  let cross_component := E.sin theta * wind_vec.length E
  let crab0 := E.asin (CLAMP (cross_component / forward_speed) (-1) 1)
  let estimated_crab_angle := crab0 * (if course_vec.cross wind_vec > 0 then -1 else 1)
  let estimated_forward :=
    E.cos estimated_crab_angle * forward_speed + E.cos theta * wind_vec.length E
  (estimated_forward * altitude / s1.params.descent_speed + stall_distance, s1)

/-- The local `estimated_forward` of `predictDistanceTraveled`: the effective
forward ground speed `cos(crab) * forward_speed + cos(theta) * |wind|`, with
`forward_speed` already raised to the floor `0.1`. -/
def DeepStall.estimated_forward (E : Env F) (s : DeepStall F) (wind : Vector3f F) : F :=
  let course := radians E s.targetHeading
  let forward_speed := MAX s.params.forward_speed (1 / 10)
  let wind_vec : Vector2f F := ⟨wind.x, wind.y⟩
  let course_vec : Vector2f F := ⟨E.cos course, E.sin course⟩
  let theta0 := E.acos (CLAMP
    (wind_vec.dot course_vec / (MAX (wind_vec.length E) (5 / 100) * course_vec.length E)) (-1) 1)
  let theta := theta0 * (if course_vec.cross wind_vec > 0 then -1 else 1)
  let cross_component := E.sin theta * wind_vec.length E
  let crab0 := E.asin (CLAMP (cross_component / forward_speed) (-1) 1)
  let estimated_crab_angle := crab0 * (if course_vec.cross wind_vec > 0 then -1 else 1)
  E.cos estimated_crab_angle * forward_speed + E.cos theta * wind_vec.length E

/-- The member function `DeepStall::computeApproachPath`. -/
def DeepStall.computeApproachPath (E : Env F) (s : DeepStall F) (_wind : Vector3f F)
    (loiterRadius deltah : F) (landing : Location) (_heading : F) : DeepStall F :=
  let s1 : DeepStall F :=
    { s with landing_point := landing, extended_approach := landing, loiter_exit := landing }
  let s2 : DeepStall F :=
    { s1 with extended_approach := E.location_update s1.extended_approach s1.targetHeading 1000 }
  let r := DeepStall.predictDistanceTraveled E s2 _wind deltah
  let d_predict := r.1
  let s3 := r.2
  let s4 : DeepStall F :=
    { s3 with loiter_exit := E.location_update s3.loiter_exit (s3.targetHeading + 180)
                (d_predict + s3.params.approach_extension) }
  let s5 : DeepStall F := { s4 with loiter := s4.loiter_exit }
  { s5 with loiter := E.location_update s5.loiter (s5.targetHeading + 90) loiterRadius }

/-- The member function `DeepStall::verify_loiter_breakout`. -/
def DeepStall.verify_loiter_breakout (E : Env F) (s : DeepStall F) (current_loc : Location)
    (heading_cd : Int) : Bool :=
  let bearing_cd := E.get_bearing_cd current_loc s.extended_approach
  let heading_err_cd := E.wrap_180_cd (bearing_cd - heading_cd)
  if s.loiter_sum_cd > 18000 ∧ |heading_err_cd| ≤ 1000 ∧ |s.loiter.alt - current_loc.alt| < 500
  then true
  else false

/-- The member function `DeepStall::setTargetHeading`. -/
def DeepStall.setTargetHeading (E : Env F) (s : DeepStall F) (hdg : F) (constrain : Bool) :
    DeepStall F :=
  if constrain then
    let delta := E.atan2
      (E.sin (E.wrap_PI (radians E hdg) - radians E s.targetHeading))
      (E.cos (E.wrap_PI (radians E hdg) - radians E s.targetHeading))
    { s with targetHeading := PIDController.wrap (CLAMP delta (-15) 15 + s.targetHeading) (-180) 180 }
  else
    { s with targetHeading := hdg }

/-- What one call of `DeepStall::getApproachWaypoint` produces: the returned
stage, the location written to `target`, and the updated object. -/
structure Waypoint (F : Type) where
  ret : STAGE
  target : Location
  self : DeepStall F

/-- The block `case DEEPSTALL_LAND` of `getApproachWaypoint`. -/
def DeepStall.caseLand (s : DeepStall F) : Waypoint F :=
  ⟨s.stage, s.extended_approach, s⟩

/-- The location `entry_loc` that `case DEEPSTALL_APPROACH` computes: the landing
point moved back along the target heading by the predicted distance. -/
def DeepStall.entryLoc (E : Env F) (s : DeepStall F) (_wind : Vector3f F) (deltah : F) :
    Location :=
  let entry_loc := s.landing_point
  let r := DeepStall.predictDistanceTraveled E s _wind deltah
  E.location_update entry_loc (r.2.targetHeading + 180) r.1

/-- The block `case DEEPSTALL_APPROACH` of `getApproachWaypoint`, with its
fall-through into `case DEEPSTALL_LAND`. -/
def DeepStall.caseApproach (E : Env F) (s : DeepStall F) (current_loc : Location)
    (_wind : Vector3f F) (deltah : F) : Waypoint F :=
  let target := s.extended_approach
  let entry_loc := DeepStall.entryLoc E s _wind deltah
  let s1 := (DeepStall.predictDistanceTraveled E s _wind deltah).2
  if E.location_passed_point current_loc s1.loiter_exit entry_loc then
    DeepStall.caseLand { s1 with stage := STAGE.DEEPSTALL_LAND }
  else if E.location_passed_point current_loc s1.loiter s1.extended_approach then
    let s2 : DeepStall F := { s1 with stage := STAGE.DEEPSTALL_FLY_TO_LOITER, loiter_sum_cd := 0 }
    ⟨s2.stage, target, s2⟩
  else
    ⟨s1.stage, target, s1⟩

/-- The update of the loiter progress at the start of the reached-target branch
of `case DEEPSTALL_LOITER`. -/
def DeepStall.loiterProgress (E : Env F) (s : DeepStall F) (nav : AP_Navigation) : DeepStall F :=
  let s1 : DeepStall F :=
    { s with loiter_sum_cd :=
        s.loiter_sum_cd + E.wrap_180_cd (nav.target_bearing_cd - s.old_target_bearing_cd) }
  { s1 with old_target_bearing_cd := nav.target_bearing_cd }

/-- The breakout branch of `case DEEPSTALL_LOITER`: the object on entry to
`case DEEPSTALL_APPROACH` after the stage change, the heading lock and the
recomputation of the approach path. -/
def DeepStall.breakout (E : Env F) (s : DeepStall F) (land_loc : Location) (_wind : Vector3f F)
    (deltah loiter_radius heading : F) : DeepStall F :=
  let s1 : DeepStall F := { s with stage := STAGE.DEEPSTALL_APPROACH }
  let s2 : DeepStall F :=
    if heading = 0 then
      DeepStall.setTargetHeading E s1 (E.atan2 (-_wind.y) (-_wind.x) * 180 / E.pi) true
    else s1
  DeepStall.computeApproachPath E s2 _wind loiter_radius deltah land_loc heading

/-- The block `case DEEPSTALL_LOITER` of `getApproachWaypoint`, with its
fall-through into `case DEEPSTALL_APPROACH`. -/
def DeepStall.caseLoiter (E : Env F) (s : DeepStall F) (land_loc current_loc : Location)
    (_wind : Vector3f F) (deltah : F) (heading_cd : Int) (nav : AP_Navigation)
    (loiter_radius heading : F) : Waypoint F :=
  if !nav.reached_loiter_target then
    let s1 : DeepStall F :=
      { s with old_target_bearing_cd := nav.target_bearing_cd, loiter_sum_cd := 0 }
    ⟨s1.stage, s.loiter, s1⟩
  else
    let s1 := DeepStall.loiterProgress E s nav
    if DeepStall.verify_loiter_breakout E s1 current_loc heading_cd then
      DeepStall.caseApproach E
        (DeepStall.breakout E s1 land_loc _wind deltah loiter_radius heading)
        current_loc _wind deltah
    else
      ⟨s1.stage, s1.loiter, s1⟩

/-- The member function `DeepStall::getApproachWaypoint`.  Every path through the
function writes `target`, so the written location is returned. -/
def DeepStall.getApproachWaypoint (E : Env F) (s : DeepStall F)
    (land_loc current_loc : Location) (_wind : Vector3f F) (deltah : F) (heading_cd : Int)
    (nav : AP_Navigation) (loiter_radius heading : F) : Waypoint F :=
  if s.stage = STAGE.DEEPSTALL_FLY_TO_LOITER ∧ E.get_distance current_loc land_loc > 500 then
    ⟨s.stage, s.loiter, s⟩
  else
    match s.stage with
    | STAGE.DEEPSTALL_FLY_TO_LOITER =>
      if E.get_distance current_loc s.loiter > 2 * loiter_radius then
        ⟨s.stage, s.loiter, s⟩
      else
        DeepStall.caseLoiter E { s with stage := STAGE.DEEPSTALL_LOITER } land_loc current_loc
          _wind deltah heading_cd nav loiter_radius heading
    | STAGE.DEEPSTALL_LOITER =>
      DeepStall.caseLoiter E s land_loc current_loc _wind deltah heading_cd nav loiter_radius
        heading
    | STAGE.DEEPSTALL_APPROACH => DeepStall.caseApproach E s current_loc _wind deltah
    | STAGE.DEEPSTALL_LAND => DeepStall.caseLand s

/-- The elapsed time `dt`, in milliseconds, that `DeepStall::land` computes from
the previous timestamp `_last_t` and the clock reading `tnow`. -/
def DeepStall.land_dt (_last_t tnow : Nat) : Nat :=
  let dt := u32sub tnow _last_t
  if _last_t = 0 ∨ dt > 1000 then 10 else dt

/-- The navigation angle `nu1` of `DeepStall::land` before the integrator term
is added. -/
def DeepStall.land_nu1 (E : Env F) (s : DeepStall F) (current_loc : Location) : F :=
  let ab := (E.location_diff s.loiter_exit s.extended_approach).normalize E
  let a_air := E.location_diff s.loiter_exit current_loc
  let _crosstrack_error := a_air.cross ab
  let sine_nu1 := _crosstrack_error / MAX s.params.l1_period (1 / 10)
  let sine_nu1 := constrain_float sine_nu1 (-(7071 / 10000)) (7107 / 10000)
  E.asin sine_nu1

/-- The cross-track integrator `l1_xtrack_i` after the update in `DeepStall::land`. -/
def DeepStall.land_xtrack_i (E : Env F) (s : DeepStall F) (dt : Nat) (current_loc : Location) :
    F :=
  if s.params.l1_i > 0 then
    constrain_float
      (s.l1_xtrack_i + DeepStall.land_nu1 E s current_loc * s.params.l1_i * (1 / (dt : F)))
      (-(5 / 10)) (5 / 10)
  else s.l1_xtrack_i

/-- The error that `DeepStall::land` passes to the yaw-rate PID. -/
def DeepStall.land_error (E : Env F) (s : DeepStall F) (dt : Nat) (track yawrate : F)
    (current_loc : Location) : F :=
  let course := radians E s.targetHeading
  let nu1 := DeepStall.land_nu1 E s current_loc + DeepStall.land_xtrack_i E s dt current_loc
  let targetTrack := course + nu1
  let desiredChange := E.atan2 (E.sin (E.wrap_PI targetTrack - track))
    (E.cos (E.wrap_PI targetTrack - track))
  PIDController.wrap
    (CLAMP (desiredChange / s.params.tcon) (-s.params.yaw_rate_limit) s.params.yaw_rate_limit
      - yawrate)
    (-E.pi) E.pi

/-- The member function `DeepStall::land`; `tnow` is the value that
`AP_HAL::millis()` returns during the call. -/
def DeepStall.land (E : Env F) (s : DeepStall F) (tnow : Nat) (track yawrate : F)
    (current_loc : Location) : DeepStall F :=
  let dt := DeepStall.land_dt s._last_t tnow
  let course := radians E s.targetHeading
  let nu1 := DeepStall.land_nu1 E s current_loc
  let l1_xtrack_i := DeepStall.land_xtrack_i E s dt current_loc
  let nu1 := nu1 + l1_xtrack_i
  let r := s.YawRateController.run ((dt : F) / 1000)
    (DeepStall.land_error E s dt track yawrate current_loc)
  { s with
    _last_t := tnow
    l1_xtrack_i := l1_xtrack_i
    targetTrack := course + nu1
    YawRateController := r.2
    rCmd := PIDController.saturate r.1 (-1) 1 }

/-- The member function `DeepStall::getRudderNorm`. -/
def DeepStall.getRudderNorm (s : DeepStall F) : F := s.rCmd

/-! ## Call sequences on a `DeepStall` object -/

/-- The arguments of one `getApproachWaypoint` call (without the output
parameter `target`). -/
structure WaypointArgs (F : Type) where
  land_loc : Location
  current_loc : Location
  wind : Vector3f F
  deltah : F
  heading_cd : Int
  nav : AP_Navigation
  loiter_radius : F
  heading : F

/-- One `getApproachWaypoint` call on bundled arguments. -/
def DeepStall.waypointCall (E : Env F) (s : DeepStall F) (a : WaypointArgs F) : Waypoint F :=
  DeepStall.getApproachWaypoint E s a.land_loc a.current_loc a.wind a.deltah a.heading_cd a.nav
    a.loiter_radius a.heading

/-- The object after a sequence of `getApproachWaypoint` calls, one per element
of the list, in order. -/
def DeepStall.waypointCalls (E : Env F) (s : DeepStall F) : List (WaypointArgs F) → DeepStall F
  | [] => s
  | a :: rest => DeepStall.waypointCalls E (DeepStall.waypointCall E s a).self rest

/-- The objects reachable from construction by calls of the public member
functions with arbitrary arguments, and by changes of the user-settable
parameters between calls. -/
inductive DeepStall.Reachable (E : Env F) : DeepStall F → Prop
  | construct (mem : DeepStall F) : DeepStall.Reachable E (DeepStall.construct mem)
  | abort {s : DeepStall F} : DeepStall.Reachable E s → DeepStall.Reachable E s.abort
  | getApproachWaypoint {s : DeepStall F} (a : WaypointArgs F) :
      DeepStall.Reachable E s → DeepStall.Reachable E (DeepStall.waypointCall E s a).self
  | computeApproachPath {s : DeepStall F} (wind : Vector3f F) (loiterRadius deltah : F)
      (landing : Location) (heading : F) :
      DeepStall.Reachable E s →
      DeepStall.Reachable E (DeepStall.computeApproachPath E s wind loiterRadius deltah landing heading)
  | setTargetHeading {s : DeepStall F} (hdg : F) (constrain : Bool) :
      DeepStall.Reachable E s → DeepStall.Reachable E (DeepStall.setTargetHeading E s hdg constrain)
  | land {s : DeepStall F} (tnow : Nat) (track yawrate : F) (current_loc : Location) :
      DeepStall.Reachable E s → DeepStall.Reachable E (DeepStall.land E s tnow track yawrate current_loc)
  | setParams {s : DeepStall F} (p : DeepstallParameters F) :
      DeepStall.Reachable E s → DeepStall.Reachable E { s with params := p }

/-- The overshoot fallback of `case DEEPSTALL_APPROACH`, for the object `m` on
entry to that block: the stall-entry test fails and the test against the line
from `loiter` to `extended_approach` succeeds. -/
def DeepStall.overshootFallback (E : Env F) (m : DeepStall F) (current_loc : Location)
    (_wind : Vector3f F) (deltah : F) : Prop :=
  E.location_passed_point current_loc m.loiter_exit (DeepStall.entryLoc E m _wind deltah) = false ∧
  E.location_passed_point current_loc m.loiter m.extended_approach = true

/-- The call of `getApproachWaypoint` on `s` with arguments `a` takes the
breakout branch of `case DEEPSTALL_LOITER`; `m` is the object on which that
block runs (`s` itself, or `s` with the stage advanced by the fall-through from
`case DEEPSTALL_FLY_TO_LOITER`). -/
def DeepStall.breaksOut (E : Env F) (s : DeepStall F) (a : WaypointArgs F) (m : DeepStall F) :
    Prop :=
  ((s.stage = STAGE.DEEPSTALL_LOITER ∧ m = s) ∨
    (s.stage = STAGE.DEEPSTALL_FLY_TO_LOITER ∧
      ¬ E.get_distance a.current_loc a.land_loc > 500 ∧
      ¬ E.get_distance a.current_loc s.loiter > 2 * a.loiter_radius ∧
      m = { s with stage := STAGE.DEEPSTALL_LOITER })) ∧
  a.nav.reached_loiter_target = true ∧
  DeepStall.verify_loiter_breakout E (DeepStall.loiterProgress E m a.nav) a.current_loc
    a.heading_cd = true

/-- The call of `getApproachWaypoint` on `s` with arguments `a` runs the block
`case DEEPSTALL_APPROACH` on the object `m`: either the call starts in stage
`APPROACH` (and `m` is `s`), or it takes the breakout branch and falls through
(and `m` is the object the breakout branch leaves). -/
def DeepStall.entersApproach (E : Env F) (s : DeepStall F) (a : WaypointArgs F)
    (m : DeepStall F) : Prop :=
  (s.stage = STAGE.DEEPSTALL_APPROACH ∧ m = s) ∨
  (∃ m0 : DeepStall F, DeepStall.breaksOut E s a m0 ∧
    m = DeepStall.breakout E (DeepStall.loiterProgress E m0 a.nav) a.land_loc a.wind a.deltah
      a.loiter_radius a.heading)

/-- The parameters as `predictDistanceTraveled` leaves them: `forward_speed`
raised to the floor `0.1`, every other value as it was. -/
def DeepstallParameters.floored (p : DeepstallParameters F) : DeepstallParameters F :=
  { p with forward_speed := MAX p.forward_speed (1 / 10) }

/-- The four stored points of the approach path: `landing_point`,
`extended_approach`, `loiter` and `loiter_exit`. -/
def DeepStall.path (s : DeepStall F) : Location × Location × Location × Location :=
  (s.landing_point, s.extended_approach, s.loiter, s.loiter_exit)

/-- The divisors that `predictDistanceTraveled` evaluates, in the order of the
source: `MAX(wind_vec.length(), 0.05f) * course_vec.length()` under the dot
product, the floored `forward_speed` under `cross_component`, and
`descent_speed` in the returned expression. -/
def DeepStall.predictDivisors (E : Env F) (s : DeepStall F) (wind : Vector3f F) : List F :=
  let course := radians E s.targetHeading
  let forward_speed := MAX s.params.forward_speed (1 / 10)
  let wind_vec : Vector2f F := ⟨wind.x, wind.y⟩
  let course_vec : Vector2f F := ⟨E.cos course, E.sin course⟩
  [MAX (wind_vec.length E) (5 / 100) * course_vec.length E, forward_speed,
    s.params.descent_speed]

/-- A call of the member function `verify_loiter_breakout`: the returned flag
and the object after the call; the body assigns no member. -/
def DeepStall.verify_loiter_breakout_call (E : Env F) (s : DeepStall F)
    (current_loc : Location) (heading_cd : Int) : Bool × DeepStall F :=
  (DeepStall.verify_loiter_breakout E s current_loc heading_cd, s)

/-- The objects reachable from an `abort()` on any object by calls of `land` and
`getApproachWaypoint` with arbitrary arguments, and by changes of the
user-settable parameters between calls. -/
inductive DeepStall.ReachableFromAbort (E : Env F) : DeepStall F → Prop
  | abort (s : DeepStall F) : DeepStall.ReachableFromAbort E s.abort
  | land {s : DeepStall F} (tnow : Nat) (track yawrate : F) (current_loc : Location) :
      DeepStall.ReachableFromAbort E s →
      DeepStall.ReachableFromAbort E (DeepStall.land E s tnow track yawrate current_loc)
  | getApproachWaypoint {s : DeepStall F} (a : WaypointArgs F) :
      DeepStall.ReachableFromAbort E s →
      DeepStall.ReachableFromAbort E (DeepStall.waypointCall E s a).self
  | setParams {s : DeepStall F} (p : DeepstallParameters F) :
      DeepStall.ReachableFromAbort E s → DeepStall.ReachableFromAbort E { s with params := p }

/-! ## Landing dispatcher (`libraries/AP_Landing/AP_Landing.cpp`) -/

/-- The enumerator `TYPE_STANDARD_GLIDE_SLOPE` of `Landing_Type`. -/
def TYPE_STANDARD_GLIDE_SLOPE : Int := 0

/-- The enumerator `TYPE_DEEPSTALL` of `Landing_Type`. -/
def TYPE_DEEPSTALL : Int := 1

/-- The members of class `AP_Landing` that the dispatch functions read or write
themselves; `members` stands for all the others, which only the per-type
functions use. -/
structure AP_Landing (S : Type) where
  type : Int
  in_progress : Bool
  commanded_go_around : Bool
  members : S

/-- The arguments of `AP_Landing::verify_land`. -/
structure VerifyLandArgs (F : Type) where
  prev_WP_loc : Location
  next_WP_loc : Location
  current_loc : Location
  height : F
  sink_rate : F
  wp_proportion : F
  last_flying_ms : Nat
  is_armed : Bool
  is_flying : Bool
  rangefinder_state_in_range : Bool

/-- What `verify_land` produces: the returned flag, the value left in the
reference parameter `next_WP_loc`, and the updated object. -/
structure VerifyLandResult (S : Type) where
  ret : Bool
  next_WP_loc : Location
  self : AP_Landing S

/-- The per-type functions `type_slope_*` and `type_deepstall_*` that the
dispatcher forwards to; their code is not among the sources. -/
structure LandingTypes (F S : Type) where
  type_slope_verify_land : AP_Landing S → VerifyLandArgs F → VerifyLandResult S
  type_deepstall_verify_land : AP_Landing S → VerifyLandArgs F → VerifyLandResult S
  type_slope_is_complete : AP_Landing S → Bool

/-- The member function `AP_Landing::verify_land`. -/
def AP_Landing.verify_land {S : Type} (T : LandingTypes F S) (l : AP_Landing S)
    (a : VerifyLandArgs F) : VerifyLandResult S :=
  if l.type = TYPE_STANDARD_GLIDE_SLOPE then T.type_slope_verify_land l a
  else if l.type = TYPE_DEEPSTALL then T.type_deepstall_verify_land l a
  else ⟨true, a.next_WP_loc, l⟩

/-- The member function `AP_Landing::is_complete`. -/
def AP_Landing.is_complete {S : Type} (T : LandingTypes F S) (l : AP_Landing S) : Bool :=
  if l.type = TYPE_STANDARD_GLIDE_SLOPE then T.type_slope_is_complete l
  else if l.type = TYPE_DEEPSTALL then false
  else true

/-- The further per-type functions `type_slope_*` and `type_deepstall_*` that the
query functions of the dispatcher forward to; their code is not among the
sources.  `R` is the type `AP_Vehicle::FixedWing::Rangefinder_State`.  A function
with reference parameters returns the values it leaves in them, and a
non-`const` function returns the updated object. -/
structure LandingQueries (F S R : Type) where
  type_slope_is_flaring : AP_Landing S → Bool
  type_slope_is_on_approach : AP_Landing S → Bool
  type_slope_is_expecting_impact : AP_Landing S → Bool
  type_deepstall_control_servos : AP_Landing S → Bool × AP_Landing S
  type_slope_setup_landing_glide_slope :
    AP_Landing S → Location → Location → Location → Int → Int × AP_Landing S
  type_slope_adjust_landing_slope_for_rangefinder_bump :
    AP_Landing S → R → Location → Location → Location → F → Int →
      R × Location × Location × Int × AP_Landing S
  type_slope_constrain_roll : AP_Landing S → Int → Int → Int × AP_Landing S
  type_deepstall_get_target_altitude_location :
    AP_Landing S → Location → Bool × Location × AP_Landing S

/-- The member function `AP_Landing::is_flaring`. -/
def AP_Landing.is_flaring {S R : Type} (Q : LandingQueries F S R) (l : AP_Landing S) : Bool :=
  if !l.in_progress then false
  else if l.type = TYPE_STANDARD_GLIDE_SLOPE then Q.type_slope_is_flaring l
  else false

/-- The member function `AP_Landing::is_on_approach`. -/
def AP_Landing.is_on_approach {S R : Type} (Q : LandingQueries F S R) (l : AP_Landing S) :
    Bool :=
  if !l.in_progress then false
  else if l.type = TYPE_STANDARD_GLIDE_SLOPE then Q.type_slope_is_on_approach l
  else false

/-- The member function `AP_Landing::is_ground_steering_allowed`. -/
def AP_Landing.is_ground_steering_allowed {S R : Type} (Q : LandingQueries F S R)
    (l : AP_Landing S) : Bool :=
  if !l.in_progress then true
  else if l.type = TYPE_STANDARD_GLIDE_SLOPE then Q.type_slope_is_on_approach l
  else if l.type = TYPE_DEEPSTALL then false
  else true

/-- The member function `AP_Landing::is_expecting_impact`. -/
def AP_Landing.is_expecting_impact {S R : Type} (Q : LandingQueries F S R) (l : AP_Landing S) :
    Bool :=
  if !l.in_progress then false
  else if l.type = TYPE_STANDARD_GLIDE_SLOPE then Q.type_slope_is_expecting_impact l
  else false

/-- The member function `AP_Landing::control_servos`: the returned flag and the
updated object. -/
def AP_Landing.control_servos {S R : Type} (Q : LandingQueries F S R) (l : AP_Landing S) :
    Bool × AP_Landing S :=
  if !l.in_progress then (false, l)
  else if l.type = TYPE_DEEPSTALL then Q.type_deepstall_control_servos l
  else (false, l)

/-- The member function `AP_Landing::setup_landing_glide_slope`: the value left in
`target_altitude_offset_cm` and the updated object. -/
def AP_Landing.setup_landing_glide_slope {S R : Type} (Q : LandingQueries F S R)
    (l : AP_Landing S) (prev_WP_loc next_WP_loc current_loc : Location)
    (target_altitude_offset_cm : Int) : Int × AP_Landing S :=
  if l.type = TYPE_STANDARD_GLIDE_SLOPE then
    Q.type_slope_setup_landing_glide_slope l prev_WP_loc next_WP_loc current_loc
      target_altitude_offset_cm
  else (target_altitude_offset_cm, l)

/-- The member function `AP_Landing::adjust_landing_slope_for_rangefinder_bump`:
the values left in `rangefinder_state`, `prev_WP_loc`, `next_WP_loc` and
`target_altitude_offset_cm`, and the updated object. -/
def AP_Landing.adjust_landing_slope_for_rangefinder_bump {S R : Type}
    (Q : LandingQueries F S R) (l : AP_Landing S) (rangefinder_state : R)
    (prev_WP_loc next_WP_loc current_loc : Location) (wp_distance : F)
    (target_altitude_offset_cm : Int) : R × Location × Location × Int × AP_Landing S :=
  if l.type = TYPE_STANDARD_GLIDE_SLOPE then
    Q.type_slope_adjust_landing_slope_for_rangefinder_bump l rangefinder_state prev_WP_loc
      next_WP_loc current_loc wp_distance target_altitude_offset_cm
  else (rangefinder_state, prev_WP_loc, next_WP_loc, target_altitude_offset_cm, l)

/-- The member function `AP_Landing::constrain_roll`: the returned roll and the
updated object. -/
def AP_Landing.constrain_roll {S R : Type} (Q : LandingQueries F S R) (l : AP_Landing S)
    (desired_roll_cd level_roll_limit_cd : Int) : Int × AP_Landing S :=
  if l.type = TYPE_STANDARD_GLIDE_SLOPE then
    Q.type_slope_constrain_roll l desired_roll_cd level_roll_limit_cd
  else (desired_roll_cd, l)

/-- The member function `AP_Landing::get_target_altitude_location`: the returned
flag, the value left in `location`, and the updated object. -/
def AP_Landing.get_target_altitude_location {S R : Type} (Q : LandingQueries F S R)
    (l : AP_Landing S) (location : Location) : Bool × Location × AP_Landing S :=
  if !l.in_progress then (false, location, l)
  else if l.type = TYPE_DEEPSTALL then Q.type_deepstall_get_target_altitude_location l location
  else (false, location, l)

/-- The per-type functions and the collaborators' values that `is_throttle_suppressed`
and `get_target_airspeed_cm` use; none of them is among the sources.
`airspeed_cruise_cm` is `aparm.airspeed_cruise_cm` and `get_land_airspeed` is
the value of `SpdHgt_Controller->get_land_airspeed()` converted to `int32_t`. -/
structure LandingSpeeds (S : Type) where
  type_slope_is_throttle_suppressed : AP_Landing S → Bool
  type_deepstall_is_throttle_suppressed : AP_Landing S → Bool
  type_slope_get_target_airspeed_cm : AP_Landing S → Int × AP_Landing S
  airspeed_cruise_cm : Int
  get_land_airspeed : Int

/-- The member function `AP_Landing::is_throttle_suppressed`. -/
def AP_Landing.is_throttle_suppressed {S : Type} (V : LandingSpeeds S) (l : AP_Landing S) :
    Bool :=
  if !l.in_progress then false
  else if l.type = TYPE_STANDARD_GLIDE_SLOPE then V.type_slope_is_throttle_suppressed l
  else if l.type = TYPE_DEEPSTALL then V.type_deepstall_is_throttle_suppressed l
  else false

/-- The member function `AP_Landing::get_target_airspeed_cm`: the returned
airspeed and the updated object. -/
def AP_Landing.get_target_airspeed_cm {S : Type} (V : LandingSpeeds S) (l : AP_Landing S) :
    Int × AP_Landing S :=
  if !l.in_progress then (V.airspeed_cruise_cm, l)
  else if l.type = TYPE_STANDARD_GLIDE_SLOPE then V.type_slope_get_target_airspeed_cm l
  else if l.type = TYPE_DEEPSTALL then (V.airspeed_cruise_cm, l)
  else (V.get_land_airspeed, l)

/-- The member function `AP_Landing::handle_flight_stage_change`. -/
def AP_Landing.handle_flight_stage_change {S : Type} (l : AP_Landing S)
    (_in_landing_stage : Bool) : AP_Landing S :=
  { l with in_progress := _in_landing_stage, commanded_go_around := false }

/-! ## Restarting the landing sequence -/

/-- The members of `AP_Mission::Mission_Command` that `restart_landing_sequence`
reads. -/
structure Mission_Command where
  id : Nat
  p1 : Nat
  deriving DecidableEq

/-- The interface of `AP_Mission` that `restart_landing_sequence` uses, on a
mission state `M`, together with the constants it compares with; none of them
is among the sources.  The getters leave the mission as it is;
`read_cmd_from_storage` gives the command when it returns true;
`set_current_cmd` gives its returned flag and the mission it leaves. -/
structure AP_Mission (M : Type) where
  MAV_CMD_NAV_LAND : Nat
  MAV_CMD_NAV_CONTINUE_AND_CHANGE_ALT : Nat
  AP_MISSION_CMD_INDEX_NONE : Nat
  get_current_nav_cmd : M → Mission_Command
  get_landing_sequence_start : M → Nat
  get_prev_nav_cmd_with_wp_index : M → Nat
  get_current_nav_index : M → Nat
  read_cmd_from_storage : M → Nat → Option Mission_Command
  set_current_cmd : M → Nat → Bool × M

/-- The calls `restart_landing_sequence` makes on its collaborators: the mission
operations (a `set_current_cmd` with its index and returned flag) and the
callback `update_flight_stage_fn`. -/
inductive MissionEvent where
  | get_current_nav_cmd
  | get_landing_sequence_start
  | get_prev_nav_cmd_with_wp_index
  | get_current_nav_index
  | read_cmd_from_storage (index : Nat)
  | set_current_cmd (index : Nat) (ok : Bool)
  | update_flight_stage_fn
  deriving DecidableEq

/-- What `restart_landing_sequence` produces: the returned flag, the mission it
leaves, and the calls it made, in order. -/
structure RestartResult (M : Type) where
  ret : Bool
  mission : M
  events : List MissionEvent

/-- One operand `guard && mission.set_current_cmd(index)` of the `if` chain: the
call is made only when the guard holds, and is appended to the calls made. -/
def AP_Landing.trySetCurrentCmd {M : Type} (A : AP_Mission M) (st : M × List MissionEvent)
    (guard : Bool) (index : Nat) : Bool × M × List MissionEvent :=
  if guard then
    ((A.set_current_cmd st.1 index).1, (A.set_current_cmd st.1 index).2,
      st.2 ++ [MissionEvent.set_current_cmd index (A.set_current_cmd st.1 index).1])
  else (false, st)

/-- The index `current_index + 1` as a `uint16_t`. -/
def AP_Landing.nextIndex (current_index : Nat) : Nat := (current_index + 1) % 65536

/-- The first three conjuncts of the first alternative: the command after the
current one can be read, is `MAV_CMD_NAV_CONTINUE_AND_CHANGE_ALT`, and has
`p1` 0 or 1. -/
def AP_Landing.climbPending {M : Type} (A : AP_Mission M) (m : M) : Bool :=
  match A.read_cmd_from_storage m (AP_Landing.nextIndex (A.get_current_nav_index m)) with
  | some cmd =>
    decide (cmd.id = A.MAV_CMD_NAV_CONTINUE_AND_CHANGE_ALT ∧ (cmd.p1 = 0 ∨ cmd.p1 = 1))
  | none => false

/-- The end of `restart_landing_sequence` when an alternative succeeded:
`update_flight_stage_fn` is called and true is returned. -/
def AP_Landing.restartSucceeded {M : Type} (st : M × List MissionEvent) : RestartResult M :=
  ⟨true, st.1, st.2 ++ [MissionEvent.update_flight_stage_fn]⟩

/-- The member function `AP_Landing::restart_landing_sequence`, on the mission
`m`. -/
def AP_Landing.restart_landing_sequence {M : Type} (A : AP_Mission M) (m : M) :
    RestartResult M :=
  if (A.get_current_nav_cmd m).id ≠ A.MAV_CMD_NAV_LAND then
    ⟨false, m, [MissionEvent.get_current_nav_cmd]⟩
  else
    let do_land_start_index := A.get_landing_sequence_start m
    let prev_cmd_with_wp_index := A.get_prev_nav_cmd_with_wp_index m
    let current_index := A.get_current_nav_index m
    let t1 := AP_Landing.trySetCurrentCmd A
      (m, [MissionEvent.get_current_nav_cmd, MissionEvent.get_landing_sequence_start,
        MissionEvent.get_prev_nav_cmd_with_wp_index, MissionEvent.get_current_nav_index,
        MissionEvent.read_cmd_from_storage (AP_Landing.nextIndex current_index)])
      (AP_Landing.climbPending A m) (AP_Landing.nextIndex current_index)
    if t1.1 then AP_Landing.restartSucceeded t1.2
    else
      let t2 := AP_Landing.trySetCurrentCmd A t1.2 (decide (do_land_start_index ≠ 0))
        do_land_start_index
      if t2.1 then AP_Landing.restartSucceeded t2.2
      else
        let t3 := AP_Landing.trySetCurrentCmd A t2.2
          (decide (prev_cmd_with_wp_index ≠ A.AP_MISSION_CMD_INDEX_NONE)) prev_cmd_with_wp_index
        if t3.1 then AP_Landing.restartSucceeded t3.2
        else ⟨false, t3.2.1, t3.2.2⟩

/-- The `set_current_cmd` call recorded by an event, if it is one. -/
def MissionEvent.attempt : MissionEvent → Option (Nat × Bool)
  | MissionEvent.set_current_cmd index ok => some (index, ok)
  | _ => none

/-- The `set_current_cmd` calls among the calls made, in order, each with its
index and returned flag. -/
def RestartResult.attempts {M : Type} (r : RestartResult M) : List (Nat × Bool) :=
  r.events.filterMap MissionEvent.attempt

/-- The indices of the alternatives of `restart_landing_sequence` whose guard
holds, in the order of the `if` chain: the command after the current one when a
climb is pending, the landing-sequence start when non-zero, the previous
waypoint with position when not `AP_MISSION_CMD_INDEX_NONE`. -/
def AP_Landing.restartCandidates {M : Type} (A : AP_Mission M) (m : M) : List Nat :=
  (if AP_Landing.climbPending A m then [AP_Landing.nextIndex (A.get_current_nav_index m)]
    else []) ++
  (if A.get_landing_sequence_start m ≠ 0 then [A.get_landing_sequence_start m] else []) ++
  (if A.get_prev_nav_cmd_with_wp_index m ≠ A.AP_MISSION_CMD_INDEX_NONE then
    [A.get_prev_nav_cmd_with_wp_index m] else [])

/-! ## Concrete inputs -/

/-- The reduction of a centidegree angle to `(-18000, 18000]`. -/
def wrap180cd (x : Int) : Int :=
  if x % 36000 > 18000 then x % 36000 - 36000 else x % 36000

/-- An environment in which the location helpers give the stated answers:
`get_distance` is `dist`, `get_bearing_cd` is `bearing` and
`location_passed_point` is `passed`; `location_update` leaves the location in
place, `location_diff` is the zero vector and the libm functions return 0. -/
def Env.fixed (dist : Location → Location → F) (bearing : Location → Location → Int)
    (passed : Location → Location → Location → Bool) : Env F :=
  { pi := 355 / 113
    cos := fun _ => 0
    sin := fun _ => 0
    acos := fun _ => 0
    asin := fun _ => 0
    atan2 := fun _ _ => 0
    sqrt := fun _ => 0
    wrap_PI := fun x => x
    wrap_180_cd := wrap180cd
    get_distance := dist
    get_bearing_cd := bearing
    location_passed_point := passed
    location_update := fun l _ _ => l
    location_diff := fun _ _ => ⟨0, 0⟩ }

/-- An object whose members are all zero, standing for the raw memory the
constructor starts from. -/
def DeepStall.blank : DeepStall F :=
  { params :=
      { enable := 0, tcon := 0, ds_a := 0, ds_b := 0, l1_i := 0, slew_speed := 0
        approach_extension := 0, l1_period := 0, approach_airspeed_cm := 0, elevator := 0
        kp := 0, ki := 0, kd := 0, ilim := 0, yaw_rate_limit := 0
        controller_handoff_airspeed_cm := 0, descent_speed := 0, forward_speed := 0 }
    YawRateController := PIDController.new 0 0 0
    rCmd := 0
    targetHeading := 0
    targetTrack := 0
    _last_t := 0
    stage := STAGE.DEEPSTALL_FLY_TO_LOITER
    ready := false
    loiter_sum_cd := 0
    old_target_bearing_cd := 0
    l1_xtrack_i := 0
    landing_point := ⟨0, 0, 0⟩
    extended_approach := ⟨0, 0, 0⟩
    loiter_exit := ⟨0, 0, 0⟩
    loiter := ⟨0, 0, 0⟩ }

/-- Arguments of a `getApproachWaypoint` call with every value zero and a
navigation controller that has not reached the loiter target. -/
def WaypointArgs.blank : WaypointArgs F :=
  { land_loc := ⟨0, 0, 0⟩
    current_loc := ⟨0, 0, 0⟩
    wind := ⟨0, 0, 0⟩
    deltah := 0
    heading_cd := 0
    nav := ⟨false, 0⟩
    loiter_radius := 0
    heading := 0 }

end Model

/-- The environment over the reals: libm is the real functions (`atan2 y x` the
argument of `x + y i`), `wrap_PI` reduces to `[-pi, pi)`, and the location
helpers give the stated answers as in `Env.fixed`. -/
noncomputable def Env.real (dist : Location → Location → ℝ) (bearing : Location → Location → Int)
    (passed : Location → Location → Location → Bool) : Env ℝ :=
  { Env.fixed dist bearing passed with
    pi := Real.pi
    cos := Real.cos
    sin := Real.sin
    acos := Real.arccos
    asin := Real.arcsin
    atan2 := fun y x => Complex.arg ⟨x, y⟩
    sqrt := Real.sqrt
    wrap_PI := fun x => x - 2 * Real.pi * (Int.floor ((x + Real.pi) / (2 * Real.pi)) : ℝ) }

/-- The environment over the reals in which every distance and every bearing is
0 and no point has been passed. -/
noncomputable def Env.realIdle : Env ℝ :=
  Env.real (fun _ _ => 0) (fun _ _ => 0) (fun _ _ _ => false)

section Inputs

variable {F : Type} [LinearOrderedField F] [FloorRing F]

/-- The environment in which every distance and every bearing is 0 and no
point has been passed. -/
def Env.idle : Env F := Env.fixed (fun _ _ => 0) (fun _ _ => 0) (fun _ _ _ => false)

/-- Per-type landing functions that report "not finished" and change nothing. -/
def LandingTypes.idle : LandingTypes F Unit :=
  { type_slope_verify_land := fun l a => ⟨false, a.next_WP_loc, l⟩
    type_deepstall_verify_land := fun l a => ⟨false, a.next_WP_loc, l⟩
    type_slope_is_complete := fun _ => false }

/-- Arguments of a `verify_land` call with every value zero. -/
def VerifyLandArgs.blank : VerifyLandArgs F :=
  { prev_WP_loc := ⟨0, 0, 0⟩
    next_WP_loc := ⟨0, 0, 0⟩
    current_loc := ⟨0, 0, 0⟩
    height := 0
    sink_rate := 0
    wp_proportion := 0
    last_flying_ms := 0
    is_armed := false
    is_flying := false
    rangefinder_state_in_range := false }

/-- The environment in which a location has passed the line from `p1` to `p2`
exactly when `p1` has latitude 1; distances and bearings are 0. -/
def Env.passedFromLat1 : Env F :=
  Env.fixed (fun _ _ => 0) (fun _ _ => 0) (fun _ p1 _ => decide (p1.lat = 1))

/-- The zeroed object in stage `APPROACH` with the loiter point at latitude 1
(and `loiter_exit` at latitude 0). -/
def DeepStall.overshot : DeepStall F :=
  { (DeepStall.blank : DeepStall F) with
    stage := STAGE.DEEPSTALL_APPROACH
    loiter := ⟨1, 0, 0⟩ }

/-- The environment in which the bearing from any location to a point `p` is
the latitude of `p`; distances are 0 and no point has been passed. -/
def Env.bearingIsLat : Env F :=
  Env.fixed (fun _ _ => 0) (fun _ p => p.lat) (fun _ _ _ => false)

/-- The zeroed object in stage `LOITER` after more than a full turn (40000
centidegrees), with target heading 100 degrees. -/
def DeepStall.loitering : DeepStall F :=
  { (DeepStall.blank : DeepStall F) with
    stage := STAGE.DEEPSTALL_LOITER
    loiter_sum_cd := 40000
    targetHeading := 100 }

/-- Arguments of a `getApproachWaypoint` call with the loiter target reached, no
commanded heading (`heading = 0`) and wind `(-1, 0, 0)`. -/
def WaypointArgs.reached : WaypointArgs F :=
  { (WaypointArgs.blank : WaypointArgs F) with
    nav := ⟨true, 0⟩
    wind := ⟨-1, 0, 0⟩ }

/-- The environment of a flat grid with one unit of latitude or longitude per
metre: `location_update` moves a location by the whole metres of the distance,
north for bearing 0, east for 90, south for 180 and west for 270, and leaves it
in place for any other bearing; the other helpers are as in `Env.idle`. -/
def Env.grid : Env F :=
  { (Env.idle : Env F) with
    location_update := fun l b d =>
      if b = 0 then ⟨l.lat + Int.floor d, l.lng, l.alt⟩
      else if b = 90 then ⟨l.lat, l.lng + Int.floor d, l.alt⟩
      else if b = 180 then ⟨l.lat - Int.floor d, l.lng, l.alt⟩
      else if b = 270 then ⟨l.lat, l.lng - Int.floor d, l.alt⟩
      else l }

/-- The zeroed object with the given `forward_speed`, `descent_speed`, `ds_a` and
`ds_b`. -/
def DeepStall.withSpeeds (forward_speed descent_speed ds_a ds_b : F) : DeepStall F :=
  { (DeepStall.blank : DeepStall F) with
    params :=
      { (DeepStall.blank : DeepStall F).params with
        forward_speed := forward_speed
        descent_speed := descent_speed
        ds_a := ds_a
        ds_b := ds_b } }

/-- Per-type query functions of a slope landing for which
`type_slope_is_flaring` and `type_slope_is_on_approach` give the stated
answers; the other functions report false and change nothing. -/
def LandingQueries.slope (flaring on_approach : Bool) : LandingQueries F Unit Unit :=
  { type_slope_is_flaring := fun _ => flaring
    type_slope_is_on_approach := fun _ => on_approach
    type_slope_is_expecting_impact := fun _ => false
    type_deepstall_control_servos := fun l => (false, l)
    type_slope_setup_landing_glide_slope := fun l _ _ _ off => (off, l)
    type_slope_adjust_landing_slope_for_rangefinder_bump :=
      fun l r prev next _ _ off => (r, prev, next, off, l)
    type_slope_constrain_roll := fun l desired _ => (desired, l)
    type_deepstall_get_target_altitude_location := fun l loc => (false, loc, l) }

/-- A mission held as a list of commands, whose state is the index of the
current command: `set_current_cmd` succeeds exactly for an index inside the
list, which it makes current, and otherwise leaves the mission as it is; the
landing-sequence start and the previous waypoint with position are fixed. -/
def AP_Mission.table (cmds : List Mission_Command) (land_start prev_wp : Nat) : AP_Mission Nat :=
  { MAV_CMD_NAV_LAND := 21
    MAV_CMD_NAV_CONTINUE_AND_CHANGE_ALT := 30
    AP_MISSION_CMD_INDEX_NONE := 65535
    get_current_nav_cmd := fun m => cmds.getD m ⟨0, 0⟩
    get_landing_sequence_start := fun _ => land_start
    get_prev_nav_cmd_with_wp_index := fun _ => prev_wp
    get_current_nav_index := fun m => m
    read_cmd_from_storage := fun _ i => cmds.get? i
    set_current_cmd := fun m i => if i < cmds.length then (true, i) else (false, m) }

/-- The mission of three commands, two waypoints (id 16) followed by a landing
(id 21), without a landing-sequence start and with the given previous waypoint
index. -/
def AP_Mission.sample (prev_wp : Nat) : AP_Mission Nat :=
  AP_Mission.table [⟨16, 0⟩, ⟨16, 0⟩, ⟨21, 0⟩] 0 prev_wp

end Inputs

/-! ## Theorems -/

section Theorems

set_option linter.unusedSectionVars false

variable {F : Type} [LinearOrderedField F] [FloorRing F]

/-! ### Basic facts about the helpers -/

theorem saturate_bounds (v lo hi : F) (h : lo ≤ hi) :
    lo ≤ PIDController.saturate v lo hi ∧ PIDController.saturate v lo hi ≤ hi := by
  unfold PIDController.saturate
  split_ifs with h1 h2
  · exact ⟨le_refl _, h⟩
  · exact ⟨h, le_refl _⟩
  · exact ⟨not_lt.mp h1, not_lt.mp h2⟩

theorem CLAMP_bounds (v lo hi : F) (h : lo ≤ hi) :
    lo ≤ CLAMP v lo hi ∧ CLAMP v lo hi ≤ hi := by
  unfold CLAMP
  split_ifs with h1 h2
  · exact ⟨le_refl _, h⟩
  · exact ⟨h, le_refl _⟩
  · exact ⟨not_lt.mp h1, not_lt.mp h2⟩

theorem wrap_of_mem (v lo hi : F) (h1 : lo ≤ v) (h2 : v ≤ hi) :
    PIDController.wrap v lo hi = v := by
  unfold PIDController.wrap
  rw [if_neg (not_lt.mpr h2), if_neg (not_lt.mpr h1)]

/-! ### Members left unchanged by the member functions -/

theorem predictDistanceTraveled_self (E : Env F) (s : DeepStall F) (w : Vector3f F) (alt : F) :
    (DeepStall.predictDistanceTraveled E s w alt).2 =
      { s with params := { s.params with forward_speed := MAX s.params.forward_speed (1 / 10) } } :=
  rfl

theorem computeApproachPath_rCmd (E : Env F) (s : DeepStall F) (w : Vector3f F) (r d : F)
    (l : Location) (h : F) :
    (DeepStall.computeApproachPath E s w r d l h).rCmd = s.rCmd := rfl

theorem computeApproachPath_targetHeading (E : Env F) (s : DeepStall F) (w : Vector3f F)
    (r d : F) (l : Location) (h : F) :
    (DeepStall.computeApproachPath E s w r d l h).targetHeading = s.targetHeading := rfl

theorem setTargetHeading_rCmd (E : Env F) (s : DeepStall F) (hdg : F) (c : Bool) :
    (DeepStall.setTargetHeading E s hdg c).rCmd = s.rCmd := by
  unfold DeepStall.setTargetHeading
  split_ifs <;> rfl

theorem caseApproach_rCmd (E : Env F) (s : DeepStall F) (cur : Location) (w : Vector3f F)
    (d : F) : (DeepStall.caseApproach E s cur w d).self.rCmd = s.rCmd := by
  unfold DeepStall.caseApproach
  simp only
  split_ifs <;> rfl

theorem caseApproach_targetHeading (E : Env F) (s : DeepStall F) (cur : Location)
    (w : Vector3f F) (d : F) :
    (DeepStall.caseApproach E s cur w d).self.targetHeading = s.targetHeading := by
  unfold DeepStall.caseApproach
  simp only
  split_ifs <;> rfl

theorem breakout_rCmd (E : Env F) (s : DeepStall F) (l : Location) (w : Vector3f F)
    (d r h : F) : (DeepStall.breakout E s l w d r h).rCmd = s.rCmd := by
  unfold DeepStall.breakout
  simp only [computeApproachPath_rCmd]
  split_ifs
  · rw [setTargetHeading_rCmd]
  · rfl

theorem caseLoiter_rCmd (E : Env F) (s : DeepStall F) (l cur : Location) (w : Vector3f F)
    (d : F) (hcd : Int) (nav : AP_Navigation) (r h : F) :
    (DeepStall.caseLoiter E s l cur w d hcd nav r h).self.rCmd = s.rCmd := by
  unfold DeepStall.caseLoiter
  simp only
  split_ifs
  · rfl
  · rw [caseApproach_rCmd, breakout_rCmd]; rfl
  · rfl

theorem getApproachWaypoint_rCmd (E : Env F) (s : DeepStall F) (l cur : Location)
    (w : Vector3f F) (d : F) (hcd : Int) (nav : AP_Navigation) (r h : F) :
    (DeepStall.getApproachWaypoint E s l cur w d hcd nav r h).self.rCmd = s.rCmd := by
  unfold DeepStall.getApproachWaypoint
  by_cases h1 : s.stage = STAGE.DEEPSTALL_FLY_TO_LOITER ∧ E.get_distance cur l > 500
  · rw [if_pos h1]
  · rw [if_neg h1]
    split
    · split_ifs
      · rfl
      · rw [caseLoiter_rCmd]
    · rw [caseLoiter_rCmd]
    · rw [caseApproach_rCmd]
    · rfl

/-! ### C1 -/

/-- C1: in every object reachable from construction by calls of `abort`,
`getApproachWaypoint`, `computeApproachPath`, `setTargetHeading` and `land`
with any arguments, and with any parameter values, `getRudderNorm` returns a
value between -1 and 1. -/
theorem getRudderNorm_bounded (E : Env F) (s : DeepStall F) (h : DeepStall.Reachable E s) :
    -1 ≤ s.getRudderNorm ∧ s.getRudderNorm ≤ 1 := by
  unfold DeepStall.getRudderNorm
  induction h with
  | construct mem => simp [DeepStall.construct]
  | abort _ ih => exact ih
  | getApproachWaypoint a _ ih =>
    unfold DeepStall.waypointCall
    rw [getApproachWaypoint_rCmd]; exact ih
  | computeApproachPath w r d l hd _ ih => rw [computeApproachPath_rCmd]; exact ih
  | setTargetHeading hdg c _ ih => rw [setTargetHeading_rCmd]; exact ih
  | land tnow track yawrate cur _ _ =>
    exact saturate_bounds _ (-1) 1 (by norm_num)
  | setParams p _ ih => exact ih

/-- Witness for C1: the object constructed from zeroed memory, after `abort()`
and one `land()` call at clock 5 with yaw rate -100, is reachable and its
rudder command is within bounds. -/
theorem getRudderNorm_bounded_witness :
    DeepStall.Reachable (Env.idle : Env ℚ)
        (DeepStall.land Env.idle (DeepStall.construct DeepStall.blank).abort 5 0 (-100) ⟨0, 0, 0⟩) ∧
      (-1 ≤ (DeepStall.land (Env.idle : Env ℚ) (DeepStall.construct DeepStall.blank).abort 5 0
          (-100) ⟨0, 0, 0⟩).getRudderNorm ∧
        (DeepStall.land (Env.idle : Env ℚ) (DeepStall.construct DeepStall.blank).abort 5 0
          (-100) ⟨0, 0, 0⟩).getRudderNorm ≤ 1) :=
  ⟨.land _ _ _ _ (.abort (.construct _)),
    getRudderNorm_bounded _ _ (.land _ _ _ _ (.abort (.construct _)))⟩

/-! ### C2 -/

/-- C2: for every deepstall object, whatever its stage, after `abort()` the stage
is `FLY_TO_LOITER`, `loiter_sum_cd` is 0, `l1_xtrack_i` is 0, `_last_t` is 0, and
the yaw-rate PID is the result of `resetIntegrator` (its integrator is 0). -/
theorem abort_resets (s : DeepStall F) :
    s.abort.stage = STAGE.DEEPSTALL_FLY_TO_LOITER ∧
    s.abort.loiter_sum_cd = 0 ∧
    s.abort.l1_xtrack_i = 0 ∧
    s.abort._last_t = 0 ∧
    s.abort.YawRateController =
      ((s.YawRateController.setGains s.params.kp s.params.ki s.params.kd).setIntegralLimit
        s.params.ilim).resetIntegrator ∧
    s.abort.YawRateController.integrator = 0 :=
  ⟨rfl, rfl, rfl, rfl, rfl, rfl⟩

/-! ### C3 -/

/-- What `verify_loiter_breakout` tests: it returns true exactly when the
accumulated turn exceeds 18000 centidegrees, the heading error is at most 1000
centidegrees and the altitude is within 500 cm of the loiter altitude. -/
theorem verify_loiter_breakout_iff (E : Env F) (s : DeepStall F) (cur : Location) (hcd : Int) :
    DeepStall.verify_loiter_breakout E s cur hcd = true ↔
      (s.loiter_sum_cd > 18000 ∧
        |E.wrap_180_cd (E.get_bearing_cd cur s.extended_approach - hcd)| ≤ 1000 ∧
        |s.loiter.alt - cur.alt| < 500) := by
  unfold DeepStall.verify_loiter_breakout
  simp only
  split_ifs with h
  · simp [h]
  · simp [h]

/-- C3 (defect of the code): with an accumulated turn of 20000 centidegrees,
less than a full turn of 36000, a heading error of 0 and the current altitude
equal to the loiter altitude, `verify_loiter_breakout` returns true. -/
theorem verify_loiter_breakout_before_full_turn :
    ({ DeepStall.blank with loiter_sum_cd := 20000 } : DeepStall ℚ).loiter_sum_cd < 36000 ∧
    DeepStall.verify_loiter_breakout (Env.idle : Env ℚ)
      { DeepStall.blank with loiter_sum_cd := 20000 } ⟨0, 0, 0⟩ 0 = true := by
  constructor
  · show (20000 : Int) < 36000
    decide
  · rw [verify_loiter_breakout_iff]
    simp [Env.idle, Env.fixed, wrap180cd, DeepStall.blank]

/-! ### C4 -/

/-- C4: `LAND` is terminal for `getApproachWaypoint`: from an object in stage
`LAND`, one call with any arguments returns `LAND`, writes the stored
`extended_approach` to the target and leaves the object unchanged; so after any
sequence of calls the object is unchanged and still in `LAND`. -/
theorem getApproachWaypoint_land_terminal (E : Env F) (s : DeepStall F)
    (h : s.stage = STAGE.DEEPSTALL_LAND) :
    (∀ a : WaypointArgs F,
      (DeepStall.waypointCall E s a).ret = STAGE.DEEPSTALL_LAND ∧
      (DeepStall.waypointCall E s a).target = s.extended_approach ∧
      (DeepStall.waypointCall E s a).self = s) ∧
    (∀ calls : List (WaypointArgs F),
      DeepStall.waypointCalls E s calls = s ∧
      (DeepStall.waypointCalls E s calls).stage = STAGE.DEEPSTALL_LAND) := by
  have one : ∀ a : WaypointArgs F, DeepStall.waypointCall E s a = ⟨STAGE.DEEPSTALL_LAND, s.extended_approach, s⟩ := by
    intro a
    unfold DeepStall.waypointCall DeepStall.getApproachWaypoint
    simp [h, DeepStall.caseLand]
  refine ⟨fun a => by rw [one a]; exact ⟨rfl, rfl, rfl⟩, ?_⟩
  intro calls
  have all : DeepStall.waypointCalls E s calls = s := by
    induction calls with
    | nil => rfl
    | cons a rest ih =>
      unfold DeepStall.waypointCalls
      rw [one a]
      exact ih
  exact ⟨all, by rw [all]; exact h⟩

/-- Witness for C4: the zeroed object put in stage `LAND`. -/
theorem getApproachWaypoint_land_terminal_witness :
    ({ DeepStall.blank with stage := STAGE.DEEPSTALL_LAND } : DeepStall ℚ).stage =
        STAGE.DEEPSTALL_LAND ∧
    ((∀ a : WaypointArgs ℚ,
      (DeepStall.waypointCall Env.idle
          ({ DeepStall.blank with stage := STAGE.DEEPSTALL_LAND } : DeepStall ℚ) a).ret =
        STAGE.DEEPSTALL_LAND ∧
      (DeepStall.waypointCall Env.idle
          ({ DeepStall.blank with stage := STAGE.DEEPSTALL_LAND } : DeepStall ℚ) a).target =
        ({ DeepStall.blank with stage := STAGE.DEEPSTALL_LAND } : DeepStall ℚ).extended_approach ∧
      (DeepStall.waypointCall Env.idle
          ({ DeepStall.blank with stage := STAGE.DEEPSTALL_LAND } : DeepStall ℚ) a).self =
        { DeepStall.blank with stage := STAGE.DEEPSTALL_LAND }) ∧
    (∀ calls : List (WaypointArgs ℚ),
      DeepStall.waypointCalls Env.idle
          ({ DeepStall.blank with stage := STAGE.DEEPSTALL_LAND } : DeepStall ℚ) calls =
        { DeepStall.blank with stage := STAGE.DEEPSTALL_LAND } ∧
      (DeepStall.waypointCalls Env.idle
          ({ DeepStall.blank with stage := STAGE.DEEPSTALL_LAND } : DeepStall ℚ) calls).stage =
        STAGE.DEEPSTALL_LAND)) :=
  ⟨rfl, getApproachWaypoint_land_terminal Env.idle _ rfl⟩

/-! ### C5 -/

/-- The stage that the block `case DEEPSTALL_APPROACH` returns. -/
theorem caseApproach_ret (E : Env F) (m : DeepStall F) (cur : Location) (w : Vector3f F)
    (d : F) :
    (DeepStall.caseApproach E m cur w d).ret =
      if E.location_passed_point cur m.loiter_exit (DeepStall.entryLoc E m w d) = true then
        STAGE.DEEPSTALL_LAND
      else if E.location_passed_point cur m.loiter m.extended_approach = true then
        STAGE.DEEPSTALL_FLY_TO_LOITER
      else m.stage := by
  unfold DeepStall.caseApproach
  simp only [predictDistanceTraveled_self]
  split_ifs <;> rfl

theorem breakout_stage (E : Env F) (s : DeepStall F) (l : Location) (w : Vector3f F)
    (d r h : F) : (DeepStall.breakout E s l w d r h).stage = STAGE.DEEPSTALL_APPROACH := by
  unfold DeepStall.breakout
  simp only
  split_ifs
  · unfold DeepStall.setTargetHeading
    simp only [if_true]
    rfl
  · rfl

/-- If the block `case DEEPSTALL_APPROACH`, run on an object in stage `APPROACH`,
returns a stage of rank below 2, the overshoot fallback was taken. -/
theorem caseApproach_earlier (E : Env F) (m : DeepStall F) (cur : Location) (w : Vector3f F)
    (d : F) (hm : m.stage = STAGE.DEEPSTALL_APPROACH)
    (h : (DeepStall.caseApproach E m cur w d).ret.rank < 2) :
    DeepStall.overshootFallback E m cur w d ∧
      (DeepStall.caseApproach E m cur w d).ret = STAGE.DEEPSTALL_FLY_TO_LOITER := by
  rw [caseApproach_ret] at h ⊢
  unfold DeepStall.overshootFallback
  split_ifs at h ⊢ with h1 h2
  · simp [STAGE.rank] at h
  · exact ⟨⟨by simpa using h1, h2⟩, rfl⟩
  · rw [hm] at h; simp [STAGE.rank] at h

/-- C5: with the order `FLY_TO_LOITER < LOITER < APPROACH < LAND`, if one
`getApproachWaypoint` call returns a stage earlier than the stage it started
in, then the call ran the block `case DEEPSTALL_APPROACH` and took the overshoot
fallback there (stall-entry test false, test against `loiter` to
`extended_approach` true), and the returned stage is `FLY_TO_LOITER`. -/
theorem getApproachWaypoint_stage_order (E : Env F) (s : DeepStall F) (a : WaypointArgs F)
    (h : (DeepStall.waypointCall E s a).ret.rank < s.stage.rank) :
    (∃ m : DeepStall F, DeepStall.entersApproach E s a m ∧
      DeepStall.overshootFallback E m a.current_loc a.wind a.deltah) ∧
    (DeepStall.waypointCall E s a).ret = STAGE.DEEPSTALL_FLY_TO_LOITER := by
  unfold DeepStall.waypointCall DeepStall.getApproachWaypoint at h ⊢
  cases hs : s.stage with
  | DEEPSTALL_FLY_TO_LOITER => rw [hs] at h; simp [STAGE.rank] at h
  | DEEPSTALL_LOITER =>
    simp only [hs, false_and, if_false, reduceCtorEq] at h ⊢
    unfold DeepStall.caseLoiter at h ⊢
    simp only at h ⊢
    by_cases hr : a.nav.reached_loiter_target = true
    · simp only [hr, Bool.not_true, Bool.false_eq_true, if_false] at h ⊢
      by_cases hb : DeepStall.verify_loiter_breakout E (DeepStall.loiterProgress E s a.nav)
          a.current_loc a.heading_cd = true
      · simp only [hb, if_true] at h ⊢
        have hlt : (DeepStall.caseApproach E
            (DeepStall.breakout E (DeepStall.loiterProgress E s a.nav) a.land_loc a.wind a.deltah
              a.loiter_radius a.heading) a.current_loc a.wind a.deltah).ret.rank < 2 := by
          have h1 : STAGE.DEEPSTALL_LOITER.rank = 1 := rfl
          rw [h1] at h; omega
        obtain ⟨ho, hret⟩ := caseApproach_earlier E _ _ _ _ (breakout_stage E _ _ _ _ _ _) hlt
        exact ⟨⟨_, Or.inr ⟨s, ⟨Or.inl ⟨hs, rfl⟩, hr, hb⟩, rfl⟩, ho⟩, hret⟩
      · simp only [hb, if_false] at h
        have : (DeepStall.loiterProgress E s a.nav).stage = STAGE.DEEPSTALL_LOITER := hs
        simp [this, STAGE.rank] at h
    · simp only [hr, Bool.not_eq_true] at h
      have hr2 : a.nav.reached_loiter_target = false := by simpa using hr
      simp [hr2, hs, STAGE.rank] at h
  | DEEPSTALL_APPROACH =>
    simp only [hs, false_and, if_false, reduceCtorEq] at h ⊢
    have hlt : (DeepStall.caseApproach E s a.current_loc a.wind a.deltah).ret.rank < 2 := by
      have h2 : STAGE.DEEPSTALL_APPROACH.rank = 2 := rfl
      rw [h2] at h; exact h
    obtain ⟨ho, hret⟩ := caseApproach_earlier E s _ _ _ hs hlt
    exact ⟨⟨s, Or.inl ⟨hs, rfl⟩, ho⟩, hret⟩
  | DEEPSTALL_LAND =>
    simp only [hs, false_and, if_false, reduceCtorEq, DeepStall.caseLand] at h
    simp [STAGE.rank] at h

/-- Witness for C5: an object in stage `APPROACH` for which the stall-entry
test fails and the test against `loiter` to `extended_approach` succeeds; the
call returns `FLY_TO_LOITER`. -/
theorem getApproachWaypoint_stage_order_witness :
    (DeepStall.waypointCall (Env.passedFromLat1 : Env ℚ) DeepStall.overshot
        WaypointArgs.blank).ret.rank < (DeepStall.overshot : DeepStall ℚ).stage.rank ∧
    ((∃ m : DeepStall ℚ,
        DeepStall.entersApproach Env.passedFromLat1 DeepStall.overshot WaypointArgs.blank m ∧
        DeepStall.overshootFallback Env.passedFromLat1 m
          (WaypointArgs.blank : WaypointArgs ℚ).current_loc
          (WaypointArgs.blank : WaypointArgs ℚ).wind
          (WaypointArgs.blank : WaypointArgs ℚ).deltah) ∧
      (DeepStall.waypointCall (Env.passedFromLat1 : Env ℚ) DeepStall.overshot
        WaypointArgs.blank).ret = STAGE.DEEPSTALL_FLY_TO_LOITER) :=
  ⟨by decide, getApproachWaypoint_stage_order Env.passedFromLat1 DeepStall.overshot
    WaypointArgs.blank (by decide)⟩

/-! ### C6 -/

/-- C6: for every landing type other than `TYPE_STANDARD_GLIDE_SLOPE` (0) and
`TYPE_DEEPSTALL` (1), whatever the per-type functions are, `verify_land` returns
true for every argument tuple (leaving the object and `next_WP_loc` as they
were) and `is_complete` returns true. -/
theorem invalid_type_completes {S : Type} (T : LandingTypes F S) (l : AP_Landing S)
    (a : VerifyLandArgs F) (h0 : l.type ≠ TYPE_STANDARD_GLIDE_SLOPE)
    (h1 : l.type ≠ TYPE_DEEPSTALL) :
    (AP_Landing.verify_land T l a).ret = true ∧
    (AP_Landing.verify_land T l a).self = l ∧
    (AP_Landing.verify_land T l a).next_WP_loc = a.next_WP_loc ∧
    AP_Landing.is_complete T l = true := by
  unfold AP_Landing.verify_land AP_Landing.is_complete
  rw [if_neg h0, if_neg h1, if_neg h0, if_neg h1]
  exact ⟨rfl, rfl, rfl, rfl⟩

/-- Witness for C6: landing type 2. -/
theorem invalid_type_completes_witness :
    (2 : Int) ≠ TYPE_STANDARD_GLIDE_SLOPE ∧ (2 : Int) ≠ TYPE_DEEPSTALL ∧
    ((AP_Landing.verify_land (LandingTypes.idle : LandingTypes ℚ Unit) ⟨2, true, false, ()⟩
        VerifyLandArgs.blank).ret = true ∧
      (AP_Landing.verify_land (LandingTypes.idle : LandingTypes ℚ Unit) ⟨2, true, false, ()⟩
        VerifyLandArgs.blank).self = ⟨2, true, false, ()⟩ ∧
      (AP_Landing.verify_land (LandingTypes.idle : LandingTypes ℚ Unit) ⟨2, true, false, ()⟩
        VerifyLandArgs.blank).next_WP_loc = (VerifyLandArgs.blank : VerifyLandArgs ℚ).next_WP_loc ∧
      AP_Landing.is_complete (LandingTypes.idle : LandingTypes ℚ Unit) ⟨2, true, false, ()⟩ =
        true) :=
  ⟨by decide, by decide,
    invalid_type_completes LandingTypes.idle ⟨2, true, false, ()⟩ VerifyLandArgs.blank
      (by decide) (by decide)⟩

/-! ### C7 -/

/-- C7 (defect of the code): when `land()` runs twice within one millisecond
(`_last_t = 5`, clock reading 5), the elapsed time it uses is 0, not 10: the
integrator term is formed with `1 / dt` at `dt = 0` and the PID is run with a
step of 0. -/
theorem land_dt_zero_same_millisecond :
    DeepStall.land_dt 5 5 = 0 ∧
    ∀ (E : Env ℚ) (s : DeepStall ℚ) (track yawrate : ℚ) (cur : Location), s._last_t = 5 →
      (DeepStall.land E s 5 track yawrate cur).l1_xtrack_i = DeepStall.land_xtrack_i E s 0 cur ∧
      (DeepStall.land E s 5 track yawrate cur).YawRateController =
        (s.YawRateController.run 0 (DeepStall.land_error E s 0 track yawrate cur)).2 := by
  have hdt : DeepStall.land_dt 5 5 = 0 := by decide
  refine ⟨hdt, ?_⟩
  intro E s track yawrate cur hs
  unfold DeepStall.land
  simp only [hs, hdt]
  simp

/-! ### C8 -/

/-- The `uint32_t` difference is the plain difference when the clock has not
wrapped. -/
theorem u32sub_of_le (a b : Nat) (hb : b ≤ a) (ha : a < 4294967296) : u32sub a b = a - b := by
  unfold u32sub
  omega

/-- C8: in a `land()` call with `_last_t = 0` (the first after construction or
`abort()`) or with a measured interval `tnow - _last_t` (modulo 2^32) above
1000 ms, the step passed to the yaw-rate PID is exactly 1/100 s; in every other
case it is the measured interval in seconds; and after the call `_last_t` is
`tnow`. -/
theorem land_pid_step (E : Env F) (s : DeepStall F) (tnow : Nat) (track yawrate : F)
    (cur : Location) :
    ((s._last_t = 0 ∨ 1000 < u32sub tnow s._last_t) →
      DeepStall.land_dt s._last_t tnow = 10 ∧
      (DeepStall.land E s tnow track yawrate cur).YawRateController =
        (s.YawRateController.run (1 / 100) (DeepStall.land_error E s 10 track yawrate cur)).2 ∧
      (DeepStall.land E s tnow track yawrate cur).rCmd =
        PIDController.saturate
          (s.YawRateController.run (1 / 100) (DeepStall.land_error E s 10 track yawrate cur)).1
          (-1) 1) ∧
    (¬ (s._last_t = 0 ∨ 1000 < u32sub tnow s._last_t) →
      DeepStall.land_dt s._last_t tnow = u32sub tnow s._last_t ∧
      (DeepStall.land E s tnow track yawrate cur).YawRateController =
        (s.YawRateController.run ((u32sub tnow s._last_t : F) / 1000)
          (DeepStall.land_error E s (u32sub tnow s._last_t) track yawrate cur)).2 ∧
      (DeepStall.land E s tnow track yawrate cur).rCmd =
        PIDController.saturate
          (s.YawRateController.run ((u32sub tnow s._last_t : F) / 1000)
            (DeepStall.land_error E s (u32sub tnow s._last_t) track yawrate cur)).1
          (-1) 1) ∧
    (s._last_t ≤ tnow → tnow < 4294967296 → u32sub tnow s._last_t = tnow - s._last_t) ∧
    (DeepStall.land E s tnow track yawrate cur)._last_t = tnow := by
  refine ⟨?_, ?_, fun h1 h2 => u32sub_of_le _ _ h1 h2, rfl⟩
  · intro h
    have hdt : DeepStall.land_dt s._last_t tnow = 10 := by
      unfold DeepStall.land_dt
      simp only
      rw [if_pos (by simpa using h)]
    have h10 : ((10 : Nat) : F) / 1000 = 1 / 100 := by norm_num
    refine ⟨hdt, ?_, ?_⟩
    · unfold DeepStall.land
      simp only [hdt, h10]
    · unfold DeepStall.land
      simp only [hdt, h10]
  · intro h
    have hdt : DeepStall.land_dt s._last_t tnow = u32sub tnow s._last_t := by
      unfold DeepStall.land_dt
      simp only
      rw [if_neg (by simpa using h)]
    refine ⟨hdt, ?_, ?_⟩
    · unfold DeepStall.land
      simp only [hdt]
    · unfold DeepStall.land
      simp only [hdt]

/-! ### `getApproachWaypoint` by starting stage -/

theorem getApproachWaypoint_of_fly (E : Env F) (s : DeepStall F) (l cur : Location)
    (w : Vector3f F) (d : F) (hcd : Int) (nav : AP_Navigation) (r h : F)
    (hs : s.stage = STAGE.DEEPSTALL_FLY_TO_LOITER) :
    DeepStall.getApproachWaypoint E s l cur w d hcd nav r h =
      if E.get_distance cur l > 500 then ⟨STAGE.DEEPSTALL_FLY_TO_LOITER, s.loiter, s⟩
      else if E.get_distance cur s.loiter > 2 * r then ⟨STAGE.DEEPSTALL_FLY_TO_LOITER, s.loiter, s⟩
      else DeepStall.caseLoiter E { s with stage := STAGE.DEEPSTALL_LOITER } l cur w d hcd nav r h := by
  unfold DeepStall.getApproachWaypoint
  simp only [hs, true_and]

theorem getApproachWaypoint_of_loiter (E : Env F) (s : DeepStall F) (l cur : Location)
    (w : Vector3f F) (d : F) (hcd : Int) (nav : AP_Navigation) (r h : F)
    (hs : s.stage = STAGE.DEEPSTALL_LOITER) :
    DeepStall.getApproachWaypoint E s l cur w d hcd nav r h =
      DeepStall.caseLoiter E s l cur w d hcd nav r h := by
  unfold DeepStall.getApproachWaypoint
  simp only [hs, false_and, if_false, reduceCtorEq]

theorem getApproachWaypoint_of_approach (E : Env F) (s : DeepStall F) (l cur : Location)
    (w : Vector3f F) (d : F) (hcd : Int) (nav : AP_Navigation) (r h : F)
    (hs : s.stage = STAGE.DEEPSTALL_APPROACH) :
    DeepStall.getApproachWaypoint E s l cur w d hcd nav r h =
      DeepStall.caseApproach E s cur w d := by
  unfold DeepStall.getApproachWaypoint
  simp only [hs, false_and, if_false, reduceCtorEq]

theorem getApproachWaypoint_of_land (E : Env F) (s : DeepStall F) (l cur : Location)
    (w : Vector3f F) (d : F) (hcd : Int) (nav : AP_Navigation) (r h : F)
    (hs : s.stage = STAGE.DEEPSTALL_LAND) :
    DeepStall.getApproachWaypoint E s l cur w d hcd nav r h =
      ⟨STAGE.DEEPSTALL_LAND, s.extended_approach, s⟩ := by
  unfold DeepStall.getApproachWaypoint
  simp only [hs, false_and, if_false, reduceCtorEq, DeepStall.caseLand]

/-! ### C9 -/

theorem setTargetHeading_loiter_exit (E : Env F) (s : DeepStall F) (x : Location) (hdg : F)
    (c : Bool) :
    DeepStall.setTargetHeading E { s with loiter_exit := x } hdg c =
      { DeepStall.setTargetHeading E s hdg c with loiter_exit := x } := by
  unfold DeepStall.setTargetHeading
  split_ifs <;> rfl

theorem breakout_loiter_exit (E : Env F) (s : DeepStall F) (x : Location) (l : Location)
    (w : Vector3f F) (d r h : F) :
    DeepStall.breakout E { s with loiter_exit := x } l w d r h = DeepStall.breakout E s l w d r h := by
  unfold DeepStall.breakout
  simp only
  split_ifs
  · exact congrArg (fun m => DeepStall.computeApproachPath E m w r d l h)
      (setTargetHeading_loiter_exit E { s with stage := STAGE.DEEPSTALL_APPROACH } x _ true) |>.trans rfl
  · rfl

theorem caseLoiter_loiter_exit (E : Env F) (s : DeepStall F) (x : Location) (l cur : Location)
    (w : Vector3f F) (d : F) (hcd : Int) (nav : AP_Navigation) (r h : F) :
    (DeepStall.caseLoiter E { s with loiter_exit := x } l cur w d hcd nav r h).ret =
        (DeepStall.caseLoiter E s l cur w d hcd nav r h).ret ∧
      (DeepStall.caseLoiter E { s with loiter_exit := x } l cur w d hcd nav r h).target =
        (DeepStall.caseLoiter E s l cur w d hcd nav r h).target := by
  unfold DeepStall.caseLoiter
  simp only
  have hp : DeepStall.loiterProgress E { s with loiter_exit := x } nav =
      { DeepStall.loiterProgress E s nav with loiter_exit := x } := rfl
  have hv : DeepStall.verify_loiter_breakout E
      { DeepStall.loiterProgress E s nav with loiter_exit := x } cur hcd =
      DeepStall.verify_loiter_breakout E (DeepStall.loiterProgress E s nav) cur hcd := rfl
  rw [hp, hv, breakout_loiter_exit]
  split_ifs
  · exact ⟨rfl, rfl⟩
  · exact ⟨rfl, rfl⟩
  · exact ⟨rfl, rfl⟩

/-- C9 as the code has it: before loiter breakout the stored `loiter_exit` is not
consulted.  For two objects in stage `FLY_TO_LOITER` or `LOITER` that differ
only in the stored `loiter_exit`, `getApproachWaypoint` called with identical
arguments returns the same stage and writes the same target. -/
theorem getApproachWaypoint_ignores_loiter_exit (E : Env F) (s : DeepStall F) (x : Location)
    (a : WaypointArgs F)
    (h : s.stage = STAGE.DEEPSTALL_FLY_TO_LOITER ∨ s.stage = STAGE.DEEPSTALL_LOITER) :
    (DeepStall.waypointCall E { s with loiter_exit := x } a).ret =
        (DeepStall.waypointCall E s a).ret ∧
      (DeepStall.waypointCall E { s with loiter_exit := x } a).target =
        (DeepStall.waypointCall E s a).target := by
  unfold DeepStall.waypointCall
  rcases h with h | h
  · rw [getApproachWaypoint_of_fly E s _ _ _ _ _ _ _ _ h,
      getApproachWaypoint_of_fly E { s with loiter_exit := x } _ _ _ _ _ _ _ _ h]
    by_cases h1 : E.get_distance a.current_loc a.land_loc > 500
    · rw [if_pos h1, if_pos h1]
      exact ⟨rfl, rfl⟩
    · rw [if_neg h1, if_neg h1]
      by_cases h2 : E.get_distance a.current_loc s.loiter > 2 * a.loiter_radius
      · rw [if_pos h2, if_pos h2]
        exact ⟨rfl, rfl⟩
      · rw [if_neg h2, if_neg h2]
        exact caseLoiter_loiter_exit E { s with stage := STAGE.DEEPSTALL_LOITER } x _ _ _ _ _ _
          _ _
  · rw [getApproachWaypoint_of_loiter E s _ _ _ _ _ _ _ _ h,
      getApproachWaypoint_of_loiter E { s with loiter_exit := x } _ _ _ _ _ _ _ _ h]
    exact caseLoiter_loiter_exit E s x _ _ _ _ _ _ _ _

/-- Witness for C9 as amended: the zeroed object (stage `FLY_TO_LOITER`) and the
same object with `loiter_exit` at latitude 7. -/
theorem getApproachWaypoint_ignores_loiter_exit_witness :
    ((DeepStall.blank : DeepStall ℚ).stage = STAGE.DEEPSTALL_FLY_TO_LOITER ∨
      (DeepStall.blank : DeepStall ℚ).stage = STAGE.DEEPSTALL_LOITER) ∧
    ((DeepStall.waypointCall (Env.idle : Env ℚ)
          { (DeepStall.blank : DeepStall ℚ) with loiter_exit := ⟨7, 0, 0⟩ } WaypointArgs.blank).ret =
        (DeepStall.waypointCall (Env.idle : Env ℚ) DeepStall.blank WaypointArgs.blank).ret ∧
      (DeepStall.waypointCall (Env.idle : Env ℚ)
          { (DeepStall.blank : DeepStall ℚ) with loiter_exit := ⟨7, 0, 0⟩ } WaypointArgs.blank).target =
        (DeepStall.waypointCall (Env.idle : Env ℚ) DeepStall.blank WaypointArgs.blank).target) :=
  ⟨Or.inl rfl, getApproachWaypoint_ignores_loiter_exit Env.idle DeepStall.blank ⟨7, 0, 0⟩
    WaypointArgs.blank (Or.inl rfl)⟩

/-- Counterexample to C9: the stored `loiter` and `extended_approach` are
consulted before breakout.  Two objects in stage `FLY_TO_LOITER` that differ only
in `loiter` get different targets (each its own `loiter`), and two objects in
stage `LOITER` that differ only in `extended_approach` (bearings 0 and 9000
centidegrees from the current location) return different stages. -/
theorem getApproachWaypoint_reads_loiter_and_extended_approach :
    (DeepStall.blank : DeepStall ℚ).stage = STAGE.DEEPSTALL_FLY_TO_LOITER ∧
    (DeepStall.waypointCall (Env.idle : Env ℚ) DeepStall.blank WaypointArgs.blank).target ≠
      (DeepStall.waypointCall (Env.idle : Env ℚ)
        { (DeepStall.blank : DeepStall ℚ) with loiter := ⟨1, 0, 0⟩ } WaypointArgs.blank).target ∧
    (DeepStall.loitering : DeepStall ℚ).stage = STAGE.DEEPSTALL_LOITER ∧
    (DeepStall.waypointCall (Env.bearingIsLat : Env ℚ) DeepStall.loitering
        WaypointArgs.reached).ret = STAGE.DEEPSTALL_APPROACH ∧
    (DeepStall.waypointCall (Env.bearingIsLat : Env ℚ)
        { (DeepStall.loitering : DeepStall ℚ) with extended_approach := ⟨9000, 0, 0⟩ }
        WaypointArgs.reached).ret = STAGE.DEEPSTALL_LOITER := by
  refine ⟨rfl, ?_, rfl, by decide, by decide⟩
  norm_num [DeepStall.waypointCall, DeepStall.getApproachWaypoint, DeepStall.caseLoiter, Env.idle,
    Env.fixed, DeepStall.blank, WaypointArgs.blank]

/-! ### C10 -/

/-- A constrained `setTargetHeading` moves the target heading by at most 15 and
wraps the result into `[-180, 180]`. -/
theorem setTargetHeading_constrained (E : Env F) (s : DeepStall F) (hdg : F) :
    ∃ δ : F, -15 ≤ δ ∧ δ ≤ 15 ∧
      (DeepStall.setTargetHeading E s hdg true).targetHeading =
        PIDController.wrap (δ + s.targetHeading) (-180) 180 := by
  unfold DeepStall.setTargetHeading
  simp only [if_true]
  exact ⟨_, (CLAMP_bounds _ (-15) 15 (by norm_num)).1, (CLAMP_bounds _ (-15) 15 (by norm_num)).2,
    rfl⟩

/-- A call that takes the breakout branch continues in `case DEEPSTALL_APPROACH`
on the object the breakout branch leaves. -/
theorem waypointCall_of_breaksOut (E : Env F) (s : DeepStall F) (a : WaypointArgs F)
    (m : DeepStall F) (hb : DeepStall.breaksOut E s a m) :
    DeepStall.waypointCall E s a =
      DeepStall.caseApproach E
        (DeepStall.breakout E (DeepStall.loiterProgress E m a.nav) a.land_loc a.wind a.deltah
          a.loiter_radius a.heading) a.current_loc a.wind a.deltah := by
  obtain ⟨hm, hr, hv⟩ := hb
  have hcase : DeepStall.caseLoiter E m a.land_loc a.current_loc a.wind a.deltah a.heading_cd
      a.nav a.loiter_radius a.heading =
      DeepStall.caseApproach E
        (DeepStall.breakout E (DeepStall.loiterProgress E m a.nav) a.land_loc a.wind a.deltah
          a.loiter_radius a.heading) a.current_loc a.wind a.deltah := by
    unfold DeepStall.caseLoiter
    simp only [hr, Bool.not_true, Bool.false_eq_true, if_false, hv, if_true]
  unfold DeepStall.waypointCall
  rcases hm with ⟨hs, rfl⟩ | ⟨hs, h1, h2, rfl⟩
  · rw [getApproachWaypoint_of_loiter E m _ _ _ _ _ _ _ _ hs]
    exact hcase
  · rw [getApproachWaypoint_of_fly E s _ _ _ _ _ _ _ _ hs, if_neg h1, if_neg h2]
    exact hcase

/-- After a call that takes the breakout branch with no commanded heading, the
target heading is the one left by the constrained `setTargetHeading` towards
`atan2(-wind.y, -wind.x)` in degrees. -/
theorem waypointCall_breakout_targetHeading (E : Env F) (s : DeepStall F) (a : WaypointArgs F)
    (m : DeepStall F) (hb : DeepStall.breaksOut E s a m) (hh : a.heading = 0) :
    (DeepStall.waypointCall E s a).self.targetHeading =
      (DeepStall.setTargetHeading E
        { DeepStall.loiterProgress E m a.nav with stage := STAGE.DEEPSTALL_APPROACH }
        (E.atan2 (-a.wind.y) (-a.wind.x) * 180 / E.pi) true).targetHeading := by
  rw [waypointCall_of_breaksOut E s a m hb, caseApproach_targetHeading]
  unfold DeepStall.breakout
  simp only [hh, if_true, computeApproachPath_targetHeading]

/-- The object on which the breakout branch runs has the target heading of the
object the call started from. -/
theorem breaksOut_targetHeading (E : Env F) (s : DeepStall F) (a : WaypointArgs F)
    (m : DeepStall F) (hb : DeepStall.breaksOut E s a m) :
    (DeepStall.loiterProgress E m a.nav).targetHeading = s.targetHeading := by
  rcases hb.1 with ⟨_, rfl⟩ | ⟨_, _, _, rfl⟩ <;> rfl

/-- C10 as the code has it: when `getApproachWaypoint` breaks out of the loiter
with no commanded heading (`heading = 0`), the target heading afterwards is the
target heading before the call changed by at most 15 and wrapped into
`[-180, 180]`; it depends on the heading before the call. -/
theorem breakout_heading_slew_limited (E : Env F) (s : DeepStall F) (a : WaypointArgs F)
    (m : DeepStall F) (hb : DeepStall.breaksOut E s a m) (hh : a.heading = 0) :
    ∃ δ : F, -15 ≤ δ ∧ δ ≤ 15 ∧
      (DeepStall.waypointCall E s a).self.targetHeading =
        PIDController.wrap (δ + s.targetHeading) (-180) 180 := by
  obtain ⟨δ, h1, h2, h3⟩ := setTargetHeading_constrained E
    { DeepStall.loiterProgress E m a.nav with stage := STAGE.DEEPSTALL_APPROACH }
    (E.atan2 (-a.wind.y) (-a.wind.x) * 180 / E.pi)
  refine ⟨δ, h1, h2, ?_⟩
  rw [waypointCall_breakout_targetHeading E s a m hb hh, h3]
  exact congrArg (fun t => PIDController.wrap (δ + t) (-180) 180)
    (breaksOut_targetHeading E s a m hb)

/-- Witness for C10 as amended: an object in stage `LOITER` after more than a
full turn, heading error 0 and altitude on the loiter altitude, with the loiter
target reached. -/
theorem breakout_heading_slew_limited_witness :
    DeepStall.breaksOut (Env.idle : Env ℚ) DeepStall.loitering WaypointArgs.reached
        DeepStall.loitering ∧
    (WaypointArgs.reached : WaypointArgs ℚ).heading = 0 ∧
    ∃ δ : ℚ, -15 ≤ δ ∧ δ ≤ 15 ∧
      (DeepStall.waypointCall (Env.idle : Env ℚ) DeepStall.loitering
          WaypointArgs.reached).self.targetHeading =
        PIDController.wrap (δ + (DeepStall.loitering : DeepStall ℚ).targetHeading) (-180) 180 :=
  ⟨⟨Or.inl ⟨rfl, rfl⟩, rfl, by decide⟩, rfl,
    breakout_heading_slew_limited Env.idle DeepStall.loitering WaypointArgs.reached
      DeepStall.loitering ⟨Or.inl ⟨rfl, rfl⟩, rfl, by decide⟩ rfl⟩

end Theorems

/-- Counterexample to C10, over the reals: wind `(-1, 0, 0)` has reciprocal
direction `atan2(0, 1) = 0` degrees; an object with target heading 100 degrees
breaks out of the loiter with no commanded heading, and its target heading
afterwards is at least 85 degrees, not 0. -/
theorem breakout_heading_not_wind_reciprocal :
    DeepStall.breaksOut Env.realIdle (DeepStall.loitering : DeepStall ℝ) WaypointArgs.reached
        DeepStall.loitering ∧
    (WaypointArgs.reached : WaypointArgs ℝ).heading = 0 ∧
    (WaypointArgs.reached : WaypointArgs ℝ).wind.x ≠ 0 ∧
    Env.realIdle.atan2 (-(WaypointArgs.reached : WaypointArgs ℝ).wind.y)
        (-(WaypointArgs.reached : WaypointArgs ℝ).wind.x) * 180 / Env.realIdle.pi = 0 ∧
    85 ≤ (DeepStall.waypointCall Env.realIdle (DeepStall.loitering : DeepStall ℝ)
        WaypointArgs.reached).self.targetHeading ∧
    (DeepStall.waypointCall Env.realIdle (DeepStall.loitering : DeepStall ℝ)
        WaypointArgs.reached).self.targetHeading ≠
      Env.realIdle.atan2 (-(WaypointArgs.reached : WaypointArgs ℝ).wind.y)
        (-(WaypointArgs.reached : WaypointArgs ℝ).wind.x) * 180 / Env.realIdle.pi := by
  have hb : DeepStall.breaksOut Env.realIdle (DeepStall.loitering : DeepStall ℝ)
      WaypointArgs.reached DeepStall.loitering := by
    refine ⟨Or.inl ⟨rfl, rfl⟩, rfl, ?_⟩
    rw [verify_loiter_breakout_iff]
    simp [DeepStall.loiterProgress, DeepStall.loitering, DeepStall.blank, WaypointArgs.reached,
      WaypointArgs.blank, Env.realIdle, Env.real, Env.fixed, wrap180cd]
  have hwind : Env.realIdle.atan2 (-(WaypointArgs.reached : WaypointArgs ℝ).wind.y)
      (-(WaypointArgs.reached : WaypointArgs ℝ).wind.x) * 180 / Env.realIdle.pi = 0 := by
    have harg : Env.realIdle.atan2 (-(WaypointArgs.reached : WaypointArgs ℝ).wind.y)
        (-(WaypointArgs.reached : WaypointArgs ℝ).wind.x) = 0 := by
      show Complex.arg ⟨-(-1), -0⟩ = 0
      have : (⟨-(-1), -0⟩ : ℂ) = 1 := by
        apply Complex.ext <;> simp
      rw [this, Complex.arg_one]
    rw [harg]; simp
  have hge : 85 ≤ (DeepStall.waypointCall Env.realIdle (DeepStall.loitering : DeepStall ℝ)
      WaypointArgs.reached).self.targetHeading := by
    rw [waypointCall_breakout_targetHeading Env.realIdle (DeepStall.loitering : DeepStall ℝ)
      WaypointArgs.reached DeepStall.loitering hb rfl]
    obtain ⟨δ, h1, h2, h3⟩ := setTargetHeading_constrained Env.realIdle
      { DeepStall.loiterProgress Env.realIdle (DeepStall.loitering : DeepStall ℝ)
          (WaypointArgs.reached : WaypointArgs ℝ).nav with stage := STAGE.DEEPSTALL_APPROACH }
      (Env.realIdle.atan2 (-(WaypointArgs.reached : WaypointArgs ℝ).wind.y)
        (-(WaypointArgs.reached : WaypointArgs ℝ).wind.x) * 180 / Env.realIdle.pi)
    have ht : ({ DeepStall.loiterProgress Env.realIdle (DeepStall.loitering : DeepStall ℝ)
        (WaypointArgs.reached : WaypointArgs ℝ).nav with
        stage := STAGE.DEEPSTALL_APPROACH } : DeepStall ℝ).targetHeading = 100 := rfl
    rw [h3, ht, wrap_of_mem _ _ _ (by linarith) (by linarith)]
    linarith
  refine ⟨hb, rfl, ?_, hwind, hge, ?_⟩
  · show (-1 : ℝ) ≠ 0
    norm_num
  · rw [hwind]
    intro h0
    rw [h0] at hge
    norm_num at hge

section Theorems2

set_option linter.unusedSectionVars false

variable {F : Type} [LinearOrderedField F] [FloorRing F]

/-! ### C11 -/

/-- The distance that `predictDistanceTraveled` returns depends on the object
only through the target heading and the parameters. -/
theorem predictDistanceTraveled_congr (E : Env F) (s t : DeepStall F) (w : Vector3f F) (alt : F)
    (hh : t.targetHeading = s.targetHeading) (hp : t.params = s.params) :
    (DeepStall.predictDistanceTraveled E t w alt).1 =
      (DeepStall.predictDistanceTraveled E s w alt).1 := by
  unfold DeepStall.predictDistanceTraveled
  simp only [hh, hp]

/-- C11 as the code has it: `computeApproachPath(wind, radius, height, landing, h)`
stores `landing_point = landing`, `extended_approach` = `landing` moved 1000 m
along the stored target heading, `loiter_exit` = `landing` moved
`predictDistanceTraveled(wind, height) + approach_extension` m along the target
heading + 180, and `loiter` = `loiter_exit` moved `radius` m along the target
heading + 90; the heading argument `h` has no effect on the result. -/
theorem computeApproachPath_points (E : Env F) (s : DeepStall F) (w : Vector3f F) (r d : F)
    (l : Location) (h : F) :
    (DeepStall.computeApproachPath E s w r d l h).landing_point = l ∧
    (DeepStall.computeApproachPath E s w r d l h).extended_approach =
      E.location_update l s.targetHeading 1000 ∧
    (DeepStall.computeApproachPath E s w r d l h).loiter_exit =
      E.location_update l (s.targetHeading + 180)
        ((DeepStall.predictDistanceTraveled E s w d).1 + s.params.approach_extension) ∧
    (DeepStall.computeApproachPath E s w r d l h).loiter =
      E.location_update (DeepStall.computeApproachPath E s w r d l h).loiter_exit
        (s.targetHeading + 90) r ∧
    (DeepStall.computeApproachPath E s w r d l h).targetHeading = s.targetHeading ∧
    ∀ h2 : F, DeepStall.computeApproachPath E s w r d l h2 =
      DeepStall.computeApproachPath E s w r d l h :=
  ⟨rfl, rfl, rfl, rfl, rfl, fun _ => rfl⟩

/-- Counterexample to C11: on the grid, an object with target heading 0 and a
call with heading argument 90 stores `extended_approach` 1000 m north of the
landing point, while the landing point moved 1000 m along bearing 90 lies
1000 m east. -/
theorem computeApproachPath_ignores_heading_argument :
    (DeepStall.computeApproachPath (Env.grid : Env ℚ) DeepStall.blank ⟨0, 0, 0⟩ 50 0 ⟨0, 0, 0⟩
        90).extended_approach = ⟨1000, 0, 0⟩ ∧
    (Env.grid : Env ℚ).location_update ⟨0, 0, 0⟩ 90 1000 = ⟨0, 1000, 0⟩ ∧
    (DeepStall.computeApproachPath (Env.grid : Env ℚ) DeepStall.blank ⟨0, 0, 0⟩ 50 0 ⟨0, 0, 0⟩
        90).extended_approach ≠ (Env.grid : Env ℚ).location_update ⟨0, 0, 0⟩ 90 1000 := by
  have h1 : (DeepStall.computeApproachPath (Env.grid : Env ℚ) DeepStall.blank ⟨0, 0, 0⟩ 50 0
      ⟨0, 0, 0⟩ 90).extended_approach = ⟨1000, 0, 0⟩ := by
    show (Env.grid : Env ℚ).location_update ⟨0, 0, 0⟩ 0 1000 = ⟨1000, 0, 0⟩
    simp [Env.grid]
  have h2 : (Env.grid : Env ℚ).location_update ⟨0, 0, 0⟩ 90 1000 = ⟨0, 1000, 0⟩ := by
    simp [Env.grid]
  refine ⟨h1, h2, ?_⟩
  rw [h1, h2]
  decide

/-! ### C15 -/

theorem MAX_idem (a b : F) : MAX (MAX a b) b = MAX a b := by
  unfold MAX
  by_cases h1 : a > b
  · simp only [if_pos h1]
  · simp only [if_neg h1, if_neg (lt_irrefl b)]

/-- The object that `computeApproachPath` leaves, field by field. -/
theorem computeApproachPath_eq (E : Env F) (s : DeepStall F) (w : Vector3f F) (r d : F)
    (l : Location) (h : F) :
    DeepStall.computeApproachPath E s w r d l h =
      { s with
        params := { s.params with forward_speed := MAX s.params.forward_speed (1 / 10) }
        landing_point := l
        extended_approach := E.location_update l s.targetHeading 1000
        loiter_exit := E.location_update l (s.targetHeading + 180)
          ((DeepStall.predictDistanceTraveled E s w d).1 + s.params.approach_extension)
        loiter := E.location_update
          (E.location_update l (s.targetHeading + 180)
            ((DeepStall.predictDistanceTraveled E s w d).1 + s.params.approach_extension))
          (s.targetHeading + 90) r } :=
  rfl

/-- Raising `forward_speed` to the floor beforehand does not change the
predicted distance. -/
theorem predictDistanceTraveled_floored (E : Env F) (s t : DeepStall F) (w : Vector3f F)
    (alt : F) (hh : t.targetHeading = s.targetHeading)
    (hp : t.params = { s.params with forward_speed := MAX s.params.forward_speed (1 / 10) }) :
    (DeepStall.predictDistanceTraveled E t w alt).1 =
      (DeepStall.predictDistanceTraveled E s w alt).1 := by
  unfold DeepStall.predictDistanceTraveled
  simp only [hh, hp, MAX_idem]

/-- C15: `computeApproachPath` is idempotent.  For every object and every
argument tuple, a second call with the same arguments leaves the object the
first call left (so the same `landing_point`, `extended_approach`,
`loiter_exit` and `loiter`), whatever `forward_speed` was at the start. -/
theorem computeApproachPath_idempotent (E : Env F) (s : DeepStall F) (w : Vector3f F) (r d : F)
    (l : Location) (h : F) :
    DeepStall.computeApproachPath E (DeepStall.computeApproachPath E s w r d l h) w r d l h =
      DeepStall.computeApproachPath E s w r d l h := by
  have hd : (DeepStall.predictDistanceTraveled E (DeepStall.computeApproachPath E s w r d l h)
      w d).1 = (DeepStall.predictDistanceTraveled E s w d).1 :=
    predictDistanceTraveled_floored E s _ w d rfl rfl
  rw [computeApproachPath_eq E (DeepStall.computeApproachPath E s w r d l h), hd]
  rw [computeApproachPath_eq E s]
  simp only [MAX_idem]

/-! ### C20 -/

/-- C20 as the code has it: `abort()` resets the stage, the timestamp, the loiter
progress and the cross-track integrator, and leaves the target heading, the
last rudder command and the four stored points as they were. -/
theorem abort_keeps_heading_and_rudder (s : DeepStall F) :
    s.abort.stage = STAGE.DEEPSTALL_FLY_TO_LOITER ∧
    s.abort._last_t = 0 ∧
    s.abort.loiter_sum_cd = 0 ∧
    s.abort.l1_xtrack_i = 0 ∧
    s.abort.targetHeading = s.targetHeading ∧
    s.abort.rCmd = s.rCmd ∧
    s.abort.landing_point = s.landing_point ∧
    s.abort.extended_approach = s.extended_approach ∧
    s.abort.loiter_exit = s.loiter_exit ∧
    s.abort.loiter = s.loiter :=
  ⟨rfl, rfl, rfl, rfl, rfl, rfl, rfl, rfl, rfl, rfl⟩

/-- Counterexample to C20: the constructor gives target heading 0 and rudder
command 0, but after `abort()` an object with target heading 100 and rudder
command 1 still has target heading 100 and rudder command 1. -/
theorem abort_does_not_reset_heading_and_rudder :
    (DeepStall.construct (DeepStall.blank : DeepStall ℚ)).targetHeading = 0 ∧
    (DeepStall.construct (DeepStall.blank : DeepStall ℚ)).rCmd = 0 ∧
    ({ (DeepStall.loitering : DeepStall ℚ) with rCmd := 1 } : DeepStall ℚ).abort.targetHeading
      = 100 ∧
    ({ (DeepStall.loitering : DeepStall ℚ) with rCmd := 1 } : DeepStall ℚ).abort.rCmd = 1 ∧
    ({ (DeepStall.loitering : DeepStall ℚ) with rCmd := 1 } : DeepStall ℚ).abort.targetHeading
      ≠ (DeepStall.construct (DeepStall.blank : DeepStall ℚ)).targetHeading ∧
    ({ (DeepStall.loitering : DeepStall ℚ) with rCmd := 1 } : DeepStall ℚ).abort.rCmd
      ≠ (DeepStall.construct (DeepStall.blank : DeepStall ℚ)).rCmd := by
  refine ⟨rfl, rfl, rfl, rfl, ?_, ?_⟩
  · show (100 : ℚ) ≠ 0
    norm_num
  · show (1 : ℚ) ≠ 0
    norm_num

end Theorems2

/-! ### Distance prediction over the reals -/

/-- The distance `predictDistanceTraveled` returns, in terms of the effective
forward ground speed. -/
theorem predictDistanceTraveled_eq {F : Type} [LinearOrderedField F] [FloorRing F] (E : Env F)
    (s : DeepStall F) (w : Vector3f F) (alt : F) :
    (DeepStall.predictDistanceTraveled E s w alt).1 =
      DeepStall.estimated_forward E s w * alt / s.params.descent_speed +
        (s.params.ds_a * E.sqrt (w.x * w.x + w.y * w.y) + s.params.ds_b) :=
  rfl

theorem CLAMP_zero : CLAMP (0 : ℝ) (-1) 1 = 0 := by
  unfold CLAMP
  norm_num

/-- With no horizontal wind the effective forward ground speed is the floored
`forward_speed`. -/
theorem estimated_forward_zero_wind (dist : Location → Location → ℝ)
    (bearing : Location → Location → Int) (passed : Location → Location → Location → Bool)
    (s : DeepStall ℝ) (z : ℝ) :
    DeepStall.estimated_forward (Env.real dist bearing passed) s ⟨0, 0, z⟩ =
      MAX s.params.forward_speed (1 / 10) := by
  unfold DeepStall.estimated_forward
  simp only [Env.real, Vector2f.length, Vector2f.dot, Vector2f.cross, zero_mul, mul_zero,
    add_zero, sub_zero, Real.sqrt_zero, zero_div, CLAMP_zero, Real.arccos_zero, lt_irrefl,
    gt_iff_lt, if_false, mul_one, Real.arcsin_zero, Real.cos_zero, one_mul]

/-- C12 as the code has it: with the zero wind vector, `predictDistanceTraveled`
over the reals returns `max(forward_speed, 0.1) * h / descent_speed + ds_b` for
every altitude, target heading and parameter setting; this is
`forward_speed * h / descent_speed + ds_b` whenever `forward_speed` is at least
the floor 0.1. -/
theorem predictDistanceTraveled_zero_wind (dist : Location → Location → ℝ)
    (bearing : Location → Location → Int) (passed : Location → Location → Location → Bool)
    (s : DeepStall ℝ) (h : ℝ) :
    (DeepStall.predictDistanceTraveled (Env.real dist bearing passed) s ⟨0, 0, 0⟩ h).1 =
        MAX s.params.forward_speed (1 / 10) * h / s.params.descent_speed + s.params.ds_b ∧
    (1 / 10 ≤ s.params.forward_speed →
      (DeepStall.predictDistanceTraveled (Env.real dist bearing passed) s ⟨0, 0, 0⟩ h).1 =
        s.params.forward_speed * h / s.params.descent_speed + s.params.ds_b) := by
  have key : (DeepStall.predictDistanceTraveled (Env.real dist bearing passed) s ⟨0, 0, 0⟩ h).1 =
      MAX s.params.forward_speed (1 / 10) * h / s.params.descent_speed + s.params.ds_b := by
    rw [predictDistanceTraveled_eq, estimated_forward_zero_wind]
    simp [Env.real]
  refine ⟨key, fun hfs => ?_⟩
  rw [key]
  unfold MAX
  split_ifs with h1
  · rfl
  · have : s.params.forward_speed = 1 / 10 := le_antisymm (not_lt.mp h1) hfs
    rw [this]

/-- Counterexample to C12: with `forward_speed = 0`, `descent_speed = 6`,
`ds_b = 0`, altitude 6 and zero wind, `predictDistanceTraveled` returns 1/10,
while `forward_speed * h / descent_speed + ds_b` is 0. -/
theorem predictDistanceTraveled_zero_wind_floor :
    (DeepStall.predictDistanceTraveled Env.realIdle (DeepStall.withSpeeds 0 6 0 0) ⟨0, 0, 0⟩ 6).1
      = 1 / 10 ∧
    (DeepStall.withSpeeds 0 6 0 0 : DeepStall ℝ).params.forward_speed * 6 /
      (DeepStall.withSpeeds 0 6 0 0 : DeepStall ℝ).params.descent_speed +
      (DeepStall.withSpeeds 0 6 0 0 : DeepStall ℝ).params.ds_b = 0 ∧
    (DeepStall.predictDistanceTraveled Env.realIdle (DeepStall.withSpeeds 0 6 0 0) ⟨0, 0, 0⟩ 6).1
      ≠ (DeepStall.withSpeeds 0 6 0 0 : DeepStall ℝ).params.forward_speed * 6 /
        (DeepStall.withSpeeds 0 6 0 0 : DeepStall ℝ).params.descent_speed +
        (DeepStall.withSpeeds 0 6 0 0 : DeepStall ℝ).params.ds_b := by
  have h1 : (DeepStall.predictDistanceTraveled Env.realIdle (DeepStall.withSpeeds 0 6 0 0)
      ⟨0, 0, 0⟩ 6).1 = 1 / 10 := by
    unfold Env.realIdle
    rw [predictDistanceTraveled_eq, estimated_forward_zero_wind]
    simp only [DeepStall.withSpeeds, MAX, Env.real]
    norm_num
  have h2 : (DeepStall.withSpeeds 0 6 0 0 : DeepStall ℝ).params.forward_speed * 6 /
      (DeepStall.withSpeeds 0 6 0 0 : DeepStall ℝ).params.descent_speed +
      (DeepStall.withSpeeds 0 6 0 0 : DeepStall ℝ).params.ds_b = 0 := by
    simp [DeepStall.withSpeeds]
  refine ⟨h1, h2, ?_⟩
  rw [h1, h2]
  norm_num

theorem le_MAX_left {F : Type} [LinearOrderedField F] (a b : F) : a ≤ MAX a b := by
  unfold MAX
  split_ifs with h
  · exact le_refl a
  · exact not_lt.mp h

theorem le_MAX_right {F : Type} [LinearOrderedField F] (a b : F) : b ≤ MAX a b := by
  unfold MAX
  split_ifs with h
  · exact le_of_lt h
  · exact le_refl b

theorem CLAMP_sq_le (x : ℝ) : CLAMP x (-1) 1 ^ 2 ≤ x ^ 2 := by
  unfold CLAMP
  split_ifs with h1 h2
  · nlinarith
  · nlinarith
  · exact le_refl _

/-- The effective forward ground speed is non-negative when the wind speed `W`
does not exceed the forward speed `fs`: the underlying inequality, for a
clamped cosine `c` and a sign `σ`. -/
theorem forward_speed_nonneg_aux (W fs c σ : ℝ) (hW : 0 ≤ W) (hfs : 0 < fs) (hWfs : W ≤ fs)
    (hc1 : -1 ≤ c) (hc2 : c ≤ 1) (hσ : σ = -1 ∨ σ = 1) :
    0 ≤ Real.cos (Real.arcsin (CLAMP (Real.sin (Real.arccos c * σ) * W / fs) (-1) 1) * σ) * fs +
      Real.cos (Real.arccos c * σ) * W := by
  have hcos : Real.cos (Real.arccos c * σ) = c := by
    rcases hσ with rfl | rfl
    · rw [mul_neg, mul_one, Real.cos_neg, Real.cos_arccos hc1 hc2]
    · rw [mul_one, Real.cos_arccos hc1 hc2]
  have hcrab : ∀ y : ℝ, Real.cos (Real.arcsin y * σ) = Real.sqrt (1 - y ^ 2) := by
    intro y
    rcases hσ with rfl | rfl
    · rw [mul_neg, mul_one, Real.cos_neg, Real.cos_arcsin]
    · rw [mul_one, Real.cos_arcsin]
  rw [hcrab, hcos]
  have hsin : Real.sin (Real.arccos c * σ) ^ 2 = 1 - c ^ 2 := by
    rw [Real.sin_sq, hcos]
  have hy := CLAMP_sq_le (Real.sin (Real.arccos c * σ) * W / fs)
  have hx : (Real.sin (Real.arccos c * σ) * W / fs) ^ 2 = (1 - c ^ 2) * (W / fs) ^ 2 := by
    rw [← hsin]; ring
  rw [hx] at hy
  have hr0 : 0 ≤ W / fs := div_nonneg hW hfs.le
  have hr1 : W / fs ≤ 1 := (div_le_one hfs).mpr hWfs
  have hr : (W / fs) ^ 2 ≤ 1 := by nlinarith
  have hc : c ^ 2 ≤ 1 := by nlinarith
  have hkey : (c * (W / fs)) ^ 2 ≤
      1 - CLAMP (Real.sin (Real.arccos c * σ) * W / fs) (-1) 1 ^ 2 := by
    have : (c * (W / fs)) ^ 2 = c ^ 2 * (W / fs) ^ 2 := by ring
    nlinarith [sq_nonneg (W / fs), sq_nonneg c]
  have hs := Real.abs_le_sqrt hkey
  have hneg : -(c * (W / fs)) ≤
      Real.sqrt (1 - CLAMP (Real.sin (Real.arccos c * σ) * W / fs) (-1) 1 ^ 2) :=
    le_trans (neg_le_abs _) hs
  have hcW : c * W = c * (W / fs) * fs := by field_simp
  rw [hcW]
  nlinarith

/-- Over the reals, the effective forward ground speed is non-negative when the
horizontal wind speed is at most `forward_speed`. -/
theorem estimated_forward_nonneg (dist : Location → Location → ℝ)
    (bearing : Location → Location → Int) (passed : Location → Location → Location → Bool)
    (s : DeepStall ℝ) (w : Vector3f ℝ)
    (hw : Real.sqrt (w.x * w.x + w.y * w.y) ≤ s.params.forward_speed) :
    0 ≤ DeepStall.estimated_forward (Env.real dist bearing passed) s w := by
  have hfs : (1 : ℝ) / 10 ≤ MAX s.params.forward_speed (1 / 10) := le_MAX_right _ _
  unfold DeepStall.estimated_forward
  exact forward_speed_nonneg_aux _ _ _ _ (Real.sqrt_nonneg _) (by linarith)
    (hw.trans (le_MAX_left _ _)) (CLAMP_bounds _ (-1) 1 (by norm_num)).1
    (CLAMP_bounds _ (-1) 1 (by norm_num)).2 (by split_ifs <;> simp)

/-! ### C13 -/

/-- C13: over the reals, for every target heading, every positive
`descent_speed`, every wind vector whose horizontal magnitude is at most
`forward_speed`, and all altitudes `h1 ≤ h2`, the predicted distance for `h1`
is at most the one for `h2`; and the effective forward ground speed
`cos(crab) * forward_speed + cos(theta) * |wind|` is non-negative. -/
theorem predictDistanceTraveled_mono (dist : Location → Location → ℝ)
    (bearing : Location → Location → Int) (passed : Location → Location → Location → Bool)
    (s : DeepStall ℝ) (w : Vector3f ℝ) (h1 h2 : ℝ)
    (hd : 0 < s.params.descent_speed)
    (hw : Real.sqrt (w.x * w.x + w.y * w.y) ≤ s.params.forward_speed)
    (hh : h1 ≤ h2) :
    (DeepStall.predictDistanceTraveled (Env.real dist bearing passed) s w h1).1 ≤
        (DeepStall.predictDistanceTraveled (Env.real dist bearing passed) s w h2).1 ∧
    0 ≤ DeepStall.estimated_forward (Env.real dist bearing passed) s w := by
  have he := estimated_forward_nonneg dist bearing passed s w hw
  refine ⟨?_, he⟩
  rw [predictDistanceTraveled_eq, predictDistanceTraveled_eq]
  exact add_le_add_right
    (div_le_div_of_nonneg_right (mul_le_mul_of_nonneg_left hh he) hd.le) _

/-- Witness for C13: `forward_speed = 10`, `descent_speed = 6`, wind `(3, 4, 0)`
of magnitude 5, altitudes 0 and 50. -/
theorem predictDistanceTraveled_mono_witness :
    0 < (DeepStall.withSpeeds 10 6 (-1) 16 : DeepStall ℝ).params.descent_speed ∧
    Real.sqrt ((⟨3, 4, 0⟩ : Vector3f ℝ).x * (⟨3, 4, 0⟩ : Vector3f ℝ).x +
        (⟨3, 4, 0⟩ : Vector3f ℝ).y * (⟨3, 4, 0⟩ : Vector3f ℝ).y) ≤
      (DeepStall.withSpeeds 10 6 (-1) 16 : DeepStall ℝ).params.forward_speed ∧
    (0 : ℝ) ≤ 50 ∧
    ((DeepStall.predictDistanceTraveled Env.realIdle (DeepStall.withSpeeds 10 6 (-1) 16)
          ⟨3, 4, 0⟩ 0).1 ≤
        (DeepStall.predictDistanceTraveled Env.realIdle (DeepStall.withSpeeds 10 6 (-1) 16)
          ⟨3, 4, 0⟩ 50).1 ∧
      0 ≤ DeepStall.estimated_forward Env.realIdle (DeepStall.withSpeeds 10 6 (-1) 16)
        ⟨3, 4, 0⟩) := by
  have hd : 0 < (DeepStall.withSpeeds 10 6 (-1) 16 : DeepStall ℝ).params.descent_speed := by
    show (0 : ℝ) < 6
    norm_num
  have hw : Real.sqrt ((⟨3, 4, 0⟩ : Vector3f ℝ).x * (⟨3, 4, 0⟩ : Vector3f ℝ).x +
      (⟨3, 4, 0⟩ : Vector3f ℝ).y * (⟨3, 4, 0⟩ : Vector3f ℝ).y) ≤
      (DeepStall.withSpeeds 10 6 (-1) 16 : DeepStall ℝ).params.forward_speed := by
    show Real.sqrt (3 * 3 + 4 * 4) ≤ (10 : ℝ)
    rw [Real.sqrt_le_iff]
    norm_num
  have hh : (0 : ℝ) ≤ 50 := by norm_num
  exact ⟨hd, hw, hh,
    predictDistanceTraveled_mono (fun _ _ => 0) (fun _ _ => 0) (fun _ _ _ => false)
      (DeepStall.withSpeeds 10 6 (-1) 16) ⟨3, 4, 0⟩ 0 50 hd hw hh⟩

/-! ### C14 -/

/-- C14 as the code has it: over the reals, for every target heading, every
positive `descent_speed`, every altitude `≥ 0`, every wind vector whose
horizontal magnitude is at most `forward_speed`, and every `ds_a`, `ds_b` for
which the stall distance `ds_a * |wind| + ds_b` is non-negative (in particular
`ds_a ≥ 0` and `ds_b ≥ 0`), the predicted distance is non-negative. -/
theorem predictDistanceTraveled_nonneg (dist : Location → Location → ℝ)
    (bearing : Location → Location → Int) (passed : Location → Location → Location → Bool)
    (s : DeepStall ℝ) (w : Vector3f ℝ) (alt : ℝ)
    (hd : 0 < s.params.descent_speed)
    (hw : Real.sqrt (w.x * w.x + w.y * w.y) ≤ s.params.forward_speed)
    (ha : 0 ≤ alt)
    (hs : 0 ≤ s.params.ds_a * Real.sqrt (w.x * w.x + w.y * w.y) + s.params.ds_b) :
    0 ≤ (DeepStall.predictDistanceTraveled (Env.real dist bearing passed) s w alt).1 := by
  have he := estimated_forward_nonneg dist bearing passed s w hw
  rw [predictDistanceTraveled_eq]
  exact add_nonneg (div_nonneg (mul_nonneg he ha) hd.le) hs

/-- Witness for C14 as amended: `forward_speed = 10`, `descent_speed = 6`,
`ds_a = -1`, `ds_b = 16`, wind `(3, 4, 0)` of magnitude 5 (stall distance 11),
altitude 50. -/
theorem predictDistanceTraveled_nonneg_witness :
    0 < (DeepStall.withSpeeds 10 6 (-1) 16 : DeepStall ℝ).params.descent_speed ∧
    Real.sqrt ((⟨3, 4, 0⟩ : Vector3f ℝ).x * (⟨3, 4, 0⟩ : Vector3f ℝ).x +
        (⟨3, 4, 0⟩ : Vector3f ℝ).y * (⟨3, 4, 0⟩ : Vector3f ℝ).y) ≤
      (DeepStall.withSpeeds 10 6 (-1) 16 : DeepStall ℝ).params.forward_speed ∧
    (0 : ℝ) ≤ 50 ∧
    0 ≤ (DeepStall.withSpeeds 10 6 (-1) 16 : DeepStall ℝ).params.ds_a *
        Real.sqrt ((⟨3, 4, 0⟩ : Vector3f ℝ).x * (⟨3, 4, 0⟩ : Vector3f ℝ).x +
          (⟨3, 4, 0⟩ : Vector3f ℝ).y * (⟨3, 4, 0⟩ : Vector3f ℝ).y) +
      (DeepStall.withSpeeds 10 6 (-1) 16 : DeepStall ℝ).params.ds_b ∧
    0 ≤ (DeepStall.predictDistanceTraveled Env.realIdle (DeepStall.withSpeeds 10 6 (-1) 16)
      ⟨3, 4, 0⟩ 50).1 := by
  have hd : 0 < (DeepStall.withSpeeds 10 6 (-1) 16 : DeepStall ℝ).params.descent_speed := by
    show (0 : ℝ) < 6
    norm_num
  have hw : Real.sqrt ((⟨3, 4, 0⟩ : Vector3f ℝ).x * (⟨3, 4, 0⟩ : Vector3f ℝ).x +
      (⟨3, 4, 0⟩ : Vector3f ℝ).y * (⟨3, 4, 0⟩ : Vector3f ℝ).y) ≤
      (DeepStall.withSpeeds 10 6 (-1) 16 : DeepStall ℝ).params.forward_speed := by
    show Real.sqrt (3 * 3 + 4 * 4) ≤ (10 : ℝ)
    rw [Real.sqrt_le_iff]
    norm_num
  have ha : (0 : ℝ) ≤ 50 := by norm_num
  have hs : 0 ≤ (DeepStall.withSpeeds 10 6 (-1) 16 : DeepStall ℝ).params.ds_a *
        Real.sqrt ((⟨3, 4, 0⟩ : Vector3f ℝ).x * (⟨3, 4, 0⟩ : Vector3f ℝ).x +
          (⟨3, 4, 0⟩ : Vector3f ℝ).y * (⟨3, 4, 0⟩ : Vector3f ℝ).y) +
      (DeepStall.withSpeeds 10 6 (-1) 16 : DeepStall ℝ).params.ds_b := by
    show (0 : ℝ) ≤ -1 * Real.sqrt (3 * 3 + 4 * 4) + 16
    have h5 : Real.sqrt (3 * 3 + 4 * 4) ≤ (10 : ℝ) := by
      rw [Real.sqrt_le_iff]
      norm_num
    linarith
  exact ⟨hd, hw, ha, hs,
    predictDistanceTraveled_nonneg (fun _ _ => 0) (fun _ _ => 0) (fun _ _ _ => false)
      (DeepStall.withSpeeds 10 6 (-1) 16) ⟨3, 4, 0⟩ 50 hd hw ha hs⟩

/-- Counterexample to C14: `forward_speed = 10`, `descent_speed = 6`,
`ds_a = -100`, `ds_b = 0`, wind `(1, 0, 0)` of magnitude 1 and altitude 0 meet
every condition of the claim, and the predicted distance is -100. -/
theorem predictDistanceTraveled_negative :
    0 ≤ (DeepStall.withSpeeds 10 6 (-100) 0 : DeepStall ℝ).params.ds_b ∧
    0 < (DeepStall.withSpeeds 10 6 (-100) 0 : DeepStall ℝ).params.descent_speed ∧
    Real.sqrt ((⟨1, 0, 0⟩ : Vector3f ℝ).x * (⟨1, 0, 0⟩ : Vector3f ℝ).x +
        (⟨1, 0, 0⟩ : Vector3f ℝ).y * (⟨1, 0, 0⟩ : Vector3f ℝ).y) ≤
      (DeepStall.withSpeeds 10 6 (-100) 0 : DeepStall ℝ).params.forward_speed ∧
    (DeepStall.predictDistanceTraveled Env.realIdle (DeepStall.withSpeeds 10 6 (-100) 0)
      ⟨1, 0, 0⟩ 0).1 = -100 ∧
    ¬ 0 ≤ (DeepStall.predictDistanceTraveled Env.realIdle (DeepStall.withSpeeds 10 6 (-100) 0)
      ⟨1, 0, 0⟩ 0).1 := by
  have hv : (DeepStall.predictDistanceTraveled Env.realIdle (DeepStall.withSpeeds 10 6 (-100) 0)
      ⟨1, 0, 0⟩ 0).1 = -100 := by
    rw [predictDistanceTraveled_eq]
    show DeepStall.estimated_forward Env.realIdle (DeepStall.withSpeeds 10 6 (-100) 0)
        ⟨1, 0, 0⟩ * 0 / (6 : ℝ) + (-100 * Real.sqrt (1 * 1 + 0 * 0) + 0) = -100
    norm_num
  refine ⟨?_, ?_, ?_, hv, ?_⟩
  · show (0 : ℝ) ≤ 0
    norm_num
  · show (0 : ℝ) < 6
    norm_num
  · show Real.sqrt (1 * 1 + 0 * 0) ≤ (10 : ℝ)
    rw [Real.sqrt_le_iff]
    norm_num
  · rw [hv]
    norm_num

/-! ### C16 -/

/-- C16: when the current navigation command is `NAV_LAND`,
`restart_landing_sequence` makes its `set_current_cmd` attempts in the fixed
order of the alternatives whose guard holds (the command after the current one
if a climb is pending, the landing-sequence start if non-zero, the previous
waypoint with position if not `NONE`); it returns true exactly when one of the
attempts succeeds; every attempt before the last one failed, so nothing is
attempted after a success; when it returns false every alternative was
attempted; and when it returns true the mission is left at the index of the
successful (last) attempt, given that a successful `set_current_cmd` makes its
index current.  The index after the current one is `current_index + 1` as a
`uint16_t`. -/
theorem restart_landing_sequence_order {M : Type} (A : AP_Mission M) (m : M)
    (hnav : (A.get_current_nav_cmd m).id = A.MAV_CMD_NAV_LAND) :
    (∃ rest : List Nat,
      (AP_Landing.restart_landing_sequence A m).attempts.map Prod.fst ++ rest =
        AP_Landing.restartCandidates A m) ∧
    ((AP_Landing.restart_landing_sequence A m).ret = true ↔
      ∃ a ∈ (AP_Landing.restart_landing_sequence A m).attempts, a.2 = true) ∧
    (∀ a ∈ (AP_Landing.restart_landing_sequence A m).attempts.dropLast, a.2 = false) ∧
    ((AP_Landing.restart_landing_sequence A m).ret = false →
      (AP_Landing.restart_landing_sequence A m).attempts.map Prod.fst =
        AP_Landing.restartCandidates A m) ∧
    ((∀ (m0 : M) (i : Nat), (A.set_current_cmd m0 i).1 = true →
        A.get_current_nav_index (A.set_current_cmd m0 i).2 = i) →
      (AP_Landing.restart_landing_sequence A m).ret = true →
      ∃ i : Nat, (AP_Landing.restart_landing_sequence A m).attempts.getLast? = some (i, true) ∧
        A.get_current_nav_index (AP_Landing.restart_landing_sequence A m).mission = i) ∧
    (A.get_current_nav_index m < 65535 →
      AP_Landing.nextIndex (A.get_current_nav_index m) = A.get_current_nav_index m + 1) := by
  have hnext : A.get_current_nav_index m < 65535 →
      AP_Landing.nextIndex (A.get_current_nav_index m) = A.get_current_nav_index m + 1 := by
    intro h
    unfold AP_Landing.nextIndex
    omega
  refine ⟨?_, ?_, ?_, ?_, ?_, hnext⟩ <;> clear hnext
  all_goals
    unfold AP_Landing.restart_landing_sequence
    rw [if_neg (not_not.mpr hnav)]
    simp only [AP_Landing.trySetCurrentCmd, AP_Landing.restartSucceeded, RestartResult.attempts,
      AP_Landing.restartCandidates]
    cases hc : AP_Landing.climbPending A m <;>
    by_cases hd : A.get_landing_sequence_start m = 0 <;>
    by_cases hp : A.get_prev_nav_cmd_with_wp_index m = A.AP_MISSION_CMD_INDEX_NONE <;>
    simp only [hd, hp, if_true, if_false, ne_eq, not_true_eq_false, not_false_eq_true,
      decide_True, decide_False, Bool.false_eq_true] <;>
    (try split_ifs) <;>
    simp_all [MissionEvent.attempt]

/-- Witness for C16: the sample mission at its landing command (index 2), with
no command after it, no landing-sequence start and previous waypoint 1; the only
attempt is `set_current_cmd(1)`, it succeeds and the mission is left at 1. -/
theorem restart_landing_sequence_order_witness :
    (((AP_Mission.sample 1).get_current_nav_cmd 2).id = (AP_Mission.sample 1).MAV_CMD_NAV_LAND ∧
      (AP_Landing.restart_landing_sequence (AP_Mission.sample 1) 2).attempts = [(1, true)] ∧
      (AP_Landing.restart_landing_sequence (AP_Mission.sample 1) 2).mission = 1) ∧
    ((∃ rest : List Nat,
      (AP_Landing.restart_landing_sequence (AP_Mission.sample 1) 2).attempts.map Prod.fst ++ rest =
        AP_Landing.restartCandidates (AP_Mission.sample 1) 2) ∧
    ((AP_Landing.restart_landing_sequence (AP_Mission.sample 1) 2).ret = true ↔
      ∃ a ∈ (AP_Landing.restart_landing_sequence (AP_Mission.sample 1) 2).attempts, a.2 = true) ∧
    (∀ a ∈ (AP_Landing.restart_landing_sequence (AP_Mission.sample 1) 2).attempts.dropLast,
      a.2 = false) ∧
    ((AP_Landing.restart_landing_sequence (AP_Mission.sample 1) 2).ret = false →
      (AP_Landing.restart_landing_sequence (AP_Mission.sample 1) 2).attempts.map Prod.fst =
        AP_Landing.restartCandidates (AP_Mission.sample 1) 2) ∧
    ((∀ (m0 : Nat) (i : Nat), ((AP_Mission.sample 1).set_current_cmd m0 i).1 = true →
        (AP_Mission.sample 1).get_current_nav_index ((AP_Mission.sample 1).set_current_cmd m0 i).2
          = i) →
      (AP_Landing.restart_landing_sequence (AP_Mission.sample 1) 2).ret = true →
      ∃ i : Nat,
        (AP_Landing.restart_landing_sequence (AP_Mission.sample 1) 2).attempts.getLast? =
          some (i, true) ∧
        (AP_Mission.sample 1).get_current_nav_index
          (AP_Landing.restart_landing_sequence (AP_Mission.sample 1) 2).mission = i) ∧
    ((AP_Mission.sample 1).get_current_nav_index 2 < 65535 →
      AP_Landing.nextIndex ((AP_Mission.sample 1).get_current_nav_index 2) =
        (AP_Mission.sample 1).get_current_nav_index 2 + 1)) :=
  ⟨⟨by decide, by decide, by decide⟩,
    restart_landing_sequence_order (AP_Mission.sample 1) 2 (by decide)⟩

/-! ### C17 -/

/-- C17: given that a failing `set_current_cmd` leaves the current command index
as it was, whenever `restart_landing_sequence` returns false the mission's
current command index is the one before the call and `update_flight_stage_fn`
has not been called; and when the current command is not `NAV_LAND` the function
returns false, leaves the mission as it is and performs no mission operation
other than reading the current command. -/
theorem restart_landing_sequence_failure {M : Type} (A : AP_Mission M) (m : M)
    (hfail : ∀ (m0 : M) (i : Nat), (A.set_current_cmd m0 i).1 = false →
      A.get_current_nav_index (A.set_current_cmd m0 i).2 = A.get_current_nav_index m0) :
    ((AP_Landing.restart_landing_sequence A m).ret = false →
      A.get_current_nav_index (AP_Landing.restart_landing_sequence A m).mission =
          A.get_current_nav_index m ∧
        MissionEvent.update_flight_stage_fn ∉ (AP_Landing.restart_landing_sequence A m).events) ∧
    ((A.get_current_nav_cmd m).id ≠ A.MAV_CMD_NAV_LAND →
      (AP_Landing.restart_landing_sequence A m).ret = false ∧
        (AP_Landing.restart_landing_sequence A m).mission = m ∧
        (AP_Landing.restart_landing_sequence A m).events = [MissionEvent.get_current_nav_cmd]) := by
  constructor
  · unfold AP_Landing.restart_landing_sequence
    by_cases hnav : (A.get_current_nav_cmd m).id = A.MAV_CMD_NAV_LAND
    · rw [if_neg (not_not.mpr hnav)]
      simp only [AP_Landing.trySetCurrentCmd, AP_Landing.restartSucceeded]
      have h1 := hfail m (AP_Landing.nextIndex (A.get_current_nav_index m))
      have h2a := hfail m (A.get_landing_sequence_start m)
      have h2b := hfail (A.set_current_cmd m (AP_Landing.nextIndex (A.get_current_nav_index m))).2
        (A.get_landing_sequence_start m)
      have h3 := fun m0 => hfail m0 (A.get_prev_nav_cmd_with_wp_index m)
      cases hc : AP_Landing.climbPending A m <;>
      by_cases hd : A.get_landing_sequence_start m = 0 <;>
      by_cases hp : A.get_prev_nav_cmd_with_wp_index m = A.AP_MISSION_CMD_INDEX_NONE <;>
      simp only [hd, hp, if_true, if_false, ne_eq, not_true_eq_false, not_false_eq_true,
        decide_True, decide_False, Bool.false_eq_true] <;>
      (try split_ifs) <;>
      simp_all
    · rw [if_pos hnav]
      simp
  · intro hnav
    unfold AP_Landing.restart_landing_sequence
    rw [if_pos hnav]
    exact ⟨rfl, rfl, rfl⟩

/-- Witness for C17: the sample mission at its landing command (index 2) with
previous waypoint index 7, outside the mission; the only attempt,
`set_current_cmd(7)`, fails, the function returns false and the mission stays at
index 2. -/
theorem restart_landing_sequence_failure_witness :
    ((∀ (m0 : Nat) (i : Nat), ((AP_Mission.sample 7).set_current_cmd m0 i).1 = false →
        (AP_Mission.sample 7).get_current_nav_index ((AP_Mission.sample 7).set_current_cmd m0 i).2
          = (AP_Mission.sample 7).get_current_nav_index m0) ∧
      (AP_Landing.restart_landing_sequence (AP_Mission.sample 7) 2).attempts = [(7, false)] ∧
      (AP_Landing.restart_landing_sequence (AP_Mission.sample 7) 2).ret = false) ∧
    (((AP_Landing.restart_landing_sequence (AP_Mission.sample 7) 2).ret = false →
      (AP_Mission.sample 7).get_current_nav_index
          (AP_Landing.restart_landing_sequence (AP_Mission.sample 7) 2).mission =
          (AP_Mission.sample 7).get_current_nav_index 2 ∧
        MissionEvent.update_flight_stage_fn ∉
          (AP_Landing.restart_landing_sequence (AP_Mission.sample 7) 2).events) ∧
    (((AP_Mission.sample 7).get_current_nav_cmd 2).id ≠ (AP_Mission.sample 7).MAV_CMD_NAV_LAND →
      (AP_Landing.restart_landing_sequence (AP_Mission.sample 7) 2).ret = false ∧
        (AP_Landing.restart_landing_sequence (AP_Mission.sample 7) 2).mission = 2 ∧
        (AP_Landing.restart_landing_sequence (AP_Mission.sample 7) 2).events =
          [MissionEvent.get_current_nav_cmd])) := by
  have hfail : ∀ (m0 : Nat) (i : Nat), ((AP_Mission.sample 7).set_current_cmd m0 i).1 = false →
      (AP_Mission.sample 7).get_current_nav_index ((AP_Mission.sample 7).set_current_cmd m0 i).2
        = (AP_Mission.sample 7).get_current_nav_index m0 := by
    intro m0 i
    simp only [AP_Mission.sample, AP_Mission.table]
    split_ifs <;> simp
  exact ⟨⟨hfail, by decide, by decide⟩,
    restart_landing_sequence_failure (AP_Mission.sample 7) 2 hfail⟩

/-! ### C18 -/

/-- C18: queries with no implementation for the selected type return
conservative defaults.  For every object with type `TYPE_DEEPSTALL`,
`is_flaring`, `is_on_approach` and `is_expecting_impact` return false,
`setup_landing_glide_slope` and `adjust_landing_slope_for_rangefinder_bump`
leave their reference arguments and the object as they were, and
`constrain_roll` returns `desired_roll_cd`; for every object with type
`TYPE_STANDARD_GLIDE_SLOPE`, `control_servos` and
`get_target_altitude_location` return false and leave the object and the
location argument as they were. -/
theorem unimplemented_queries_default {F S R : Type} (Q : LandingQueries F S R)
    (l : AP_Landing S) (rangefinder_state : R) (prev_WP_loc next_WP_loc current_loc loc : Location)
    (wp_distance : F) (target_altitude_offset_cm desired_roll_cd level_roll_limit_cd : Int) :
    AP_Landing.is_flaring Q { l with type := TYPE_DEEPSTALL } = false ∧
    AP_Landing.is_on_approach Q { l with type := TYPE_DEEPSTALL } = false ∧
    AP_Landing.is_expecting_impact Q { l with type := TYPE_DEEPSTALL } = false ∧
    AP_Landing.setup_landing_glide_slope Q { l with type := TYPE_DEEPSTALL } prev_WP_loc
        next_WP_loc current_loc target_altitude_offset_cm =
      (target_altitude_offset_cm, { l with type := TYPE_DEEPSTALL }) ∧
    AP_Landing.adjust_landing_slope_for_rangefinder_bump Q { l with type := TYPE_DEEPSTALL }
        rangefinder_state prev_WP_loc next_WP_loc current_loc wp_distance
        target_altitude_offset_cm =
      (rangefinder_state, prev_WP_loc, next_WP_loc, target_altitude_offset_cm,
        { l with type := TYPE_DEEPSTALL }) ∧
    AP_Landing.constrain_roll Q { l with type := TYPE_DEEPSTALL } desired_roll_cd
        level_roll_limit_cd = (desired_roll_cd, { l with type := TYPE_DEEPSTALL }) ∧
    AP_Landing.control_servos Q { l with type := TYPE_STANDARD_GLIDE_SLOPE } =
      (false, { l with type := TYPE_STANDARD_GLIDE_SLOPE }) ∧
    AP_Landing.get_target_altitude_location Q { l with type := TYPE_STANDARD_GLIDE_SLOPE } loc =
      (false, loc, { l with type := TYPE_STANDARD_GLIDE_SLOPE }) := by
  have h10 : TYPE_DEEPSTALL ≠ TYPE_STANDARD_GLIDE_SLOPE := by decide
  have h01 : TYPE_STANDARD_GLIDE_SLOPE ≠ TYPE_DEEPSTALL := by decide
  refine ⟨?_, ?_, ?_, ?_, ?_, ?_, ?_, ?_⟩
  · unfold AP_Landing.is_flaring
    simp only [if_neg h10, ite_self]
  · unfold AP_Landing.is_on_approach
    simp only [if_neg h10, ite_self]
  · unfold AP_Landing.is_expecting_impact
    simp only [if_neg h10, ite_self]
  · unfold AP_Landing.setup_landing_glide_slope
    simp only [if_neg h10]
  · unfold AP_Landing.adjust_landing_slope_for_rangefinder_bump
    simp only [if_neg h10]
  · unfold AP_Landing.constrain_roll
    simp only [if_neg h10]
  · unfold AP_Landing.control_servos
    simp only [if_neg h01, ite_self]
  · unfold AP_Landing.get_target_altitude_location
    simp only [if_neg h01, ite_self]

/-! ### C19 -/

/-- C19 (defect of the code): for the slope type with a landing in progress,
`is_ground_steering_allowed` returns what `is_on_approach` returns.  On approach
(`type_slope_is_on_approach()` true) both return true, so ground steering is
not disabled; and while flaring and not on approach, `is_flaring` returns true
and `is_ground_steering_allowed` returns false. -/
theorem ground_steering_follows_on_approach :
    (AP_Landing.is_on_approach (LandingQueries.slope false true : LandingQueries ℚ Unit Unit)
        ⟨TYPE_STANDARD_GLIDE_SLOPE, true, false, ()⟩ = true ∧
      AP_Landing.is_ground_steering_allowed
        (LandingQueries.slope false true : LandingQueries ℚ Unit Unit)
        ⟨TYPE_STANDARD_GLIDE_SLOPE, true, false, ()⟩ = true) ∧
    (AP_Landing.is_flaring (LandingQueries.slope true false : LandingQueries ℚ Unit Unit)
        ⟨TYPE_STANDARD_GLIDE_SLOPE, true, false, ()⟩ = true ∧
      AP_Landing.is_ground_steering_allowed
        (LandingQueries.slope true false : LandingQueries ℚ Unit Unit)
        ⟨TYPE_STANDARD_GLIDE_SLOPE, true, false, ()⟩ = false) ∧
    ∀ (S R : Type) (Q : LandingQueries ℚ S R) (l : AP_Landing S),
      l.in_progress = true → l.type = TYPE_STANDARD_GLIDE_SLOPE →
      AP_Landing.is_ground_steering_allowed Q l = AP_Landing.is_on_approach Q l := by
  refine ⟨⟨by decide, by decide⟩, ⟨by decide, by decide⟩, ?_⟩
  intro S R Q l hp ht
  unfold AP_Landing.is_ground_steering_allowed AP_Landing.is_on_approach
  simp only [hp, ht, Bool.not_true, Bool.false_eq_true, if_false, if_true]

section Theorems3

set_option linter.unusedSectionVars false

variable {F : Type} [LinearOrderedField F] [FloorRing F]

/-! ### The blocks of `getApproachWaypoint`, in full -/

/-- What the block `case DEEPSTALL_APPROACH` produces, by the outcome of its two
tests; `predictDistanceTraveled` has floored `forward_speed` in each case. -/
theorem caseApproach_eq (E : Env F) (m : DeepStall F) (cur : Location) (w : Vector3f F)
    (d : F) :
    DeepStall.caseApproach E m cur w d =
      if E.location_passed_point cur m.loiter_exit (DeepStall.entryLoc E m w d) = true then
        ⟨STAGE.DEEPSTALL_LAND, m.extended_approach,
          { m with params := m.params.floored, stage := STAGE.DEEPSTALL_LAND }⟩
      else if E.location_passed_point cur m.loiter m.extended_approach = true then
        ⟨STAGE.DEEPSTALL_FLY_TO_LOITER, m.extended_approach,
          { m with params := m.params.floored, stage := STAGE.DEEPSTALL_FLY_TO_LOITER,
                   loiter_sum_cd := 0 }⟩
      else ⟨m.stage, m.extended_approach, { m with params := m.params.floored }⟩ := by
  unfold DeepStall.caseApproach
  simp only [predictDistanceTraveled_self, DeepStall.caseLand]
  split_ifs <;> rfl

/-- What the block `case DEEPSTALL_LOITER` produces, by whether the loiter target
is reached and by the outcome of the breakout test. -/
theorem caseLoiter_eq (E : Env F) (s : DeepStall F) (l cur : Location) (w : Vector3f F)
    (d : F) (hcd : Int) (nav : AP_Navigation) (r h : F) :
    DeepStall.caseLoiter E s l cur w d hcd nav r h =
      if nav.reached_loiter_target = true then
        if DeepStall.verify_loiter_breakout E (DeepStall.loiterProgress E s nav) cur hcd = true
        then
          DeepStall.caseApproach E
            (DeepStall.breakout E (DeepStall.loiterProgress E s nav) l w d r h) cur w d
        else
          ⟨s.stage, s.loiter, DeepStall.loiterProgress E s nav⟩
      else
        ⟨s.stage, s.loiter,
          { s with old_target_bearing_cd := nav.target_bearing_cd, loiter_sum_cd := 0 }⟩ := by
  unfold DeepStall.caseLoiter
  cases hr : nav.reached_loiter_target
  · simp only [Bool.not_false, if_true, Bool.false_eq_true, if_false]
  · simp only [Bool.not_true, Bool.false_eq_true, if_false, if_true]
    split_ifs <;> rfl

/-- The object the breakout branch leaves: the stage is `APPROACH`, the path is
recomputed, `forward_speed` is floored, and the target heading is the one left
by the heading lock. -/
theorem breakout_frame (E : Env F) (s : DeepStall F) (l : Location) (w : Vector3f F)
    (d r h : F) :
    (DeepStall.breakout E s l w d r h).params = s.params.floored ∧
    (DeepStall.breakout E s l w d r h).loiter_sum_cd = s.loiter_sum_cd ∧
    (DeepStall.breakout E s l w d r h).old_target_bearing_cd = s.old_target_bearing_cd ∧
    (DeepStall.breakout E s l w d r h).l1_xtrack_i = s.l1_xtrack_i := by
  unfold DeepStall.breakout
  simp only
  split_ifs
  · unfold DeepStall.setTargetHeading
    simp only [if_true]
    exact ⟨rfl, rfl, rfl, rfl⟩
  · exact ⟨rfl, rfl, rfl, rfl⟩

theorem floored_floored (p : DeepstallParameters F) : p.floored.floored = p.floored := by
  unfold DeepstallParameters.floored
  simp only [MAX_idem]

/-! ### C21 -/

theorem caseApproach_params (E : Env F) (m : DeepStall F) (cur : Location) (w : Vector3f F)
    (d : F) : (DeepStall.caseApproach E m cur w d).self.params = m.params.floored := by
  rw [caseApproach_eq]
  split_ifs <;> rfl

theorem caseLoiter_params (E : Env F) (s : DeepStall F) (l cur : Location) (w : Vector3f F)
    (d : F) (hcd : Int) (nav : AP_Navigation) (r h : F) :
    (DeepStall.caseLoiter E s l cur w d hcd nav r h).self.params = s.params ∨
    (DeepStall.caseLoiter E s l cur w d hcd nav r h).self.params = s.params.floored := by
  rw [caseLoiter_eq]
  split_ifs
  · right
    rw [caseApproach_params, (breakout_frame E _ l w d r h).1]
    exact floored_floored s.params
  · left; rfl
  · left; rfl

theorem waypointCall_params (E : Env F) (s : DeepStall F) (a : WaypointArgs F) :
    (DeepStall.waypointCall E s a).self.params = s.params ∨
    (DeepStall.waypointCall E s a).self.params = s.params.floored := by
  unfold DeepStall.waypointCall
  cases hs : s.stage with
  | DEEPSTALL_FLY_TO_LOITER =>
    rw [getApproachWaypoint_of_fly E s _ _ _ _ _ _ _ _ hs]
    split_ifs
    · left; rfl
    · left; rfl
    · exact caseLoiter_params E { s with stage := STAGE.DEEPSTALL_LOITER } _ _ _ _ _ _ _ _
  | DEEPSTALL_LOITER =>
    rw [getApproachWaypoint_of_loiter E s _ _ _ _ _ _ _ _ hs]
    exact caseLoiter_params E s _ _ _ _ _ _ _ _
  | DEEPSTALL_APPROACH =>
    rw [getApproachWaypoint_of_approach E s _ _ _ _ _ _ _ _ hs]
    right
    exact caseApproach_params E s _ _ _
  | DEEPSTALL_LAND =>
    rw [getApproachWaypoint_of_land E s _ _ _ _ _ _ _ _ hs]
    left; rfl

theorem MAX_eq_left (a b : F) (h : b ≤ a) : MAX a b = a := by
  unfold MAX
  split_ifs with h1
  · rfl
  · exact le_antisymm h (not_lt.mp h1)

/-- C21 as the code has it: `land()` leaves every parameter as it was;
`predictDistanceTraveled` and `computeApproachPath` leave every parameter as it
was except `forward_speed`, which they raise to `max(forward_speed, 0.1)`;
`getApproachWaypoint` leaves the parameters as they were or with `forward_speed`
raised in that way.  So every parameter other than `forward_speed` is constant,
and all are constant when `forward_speed` is at least 0.1. -/
theorem parameters_constant_up_to_floor (E : Env F) (s : DeepStall F) (w : Vector3f F)
    (alt r d : F) (l cur : Location) (h : F) (a : WaypointArgs F) (tnow : Nat)
    (track yawrate : F) :
    (DeepStall.predictDistanceTraveled E s w alt).2.params = s.params.floored ∧
    (DeepStall.computeApproachPath E s w r d l h).params = s.params.floored ∧
    ((DeepStall.waypointCall E s a).self.params = s.params ∨
      (DeepStall.waypointCall E s a).self.params = s.params.floored) ∧
    (DeepStall.land E s tnow track yawrate cur).params = s.params ∧
    ({ s.params.floored with forward_speed := s.params.forward_speed } = s.params) ∧
    s.params.floored.forward_speed = MAX s.params.forward_speed (1 / 10) ∧
    (1 / 10 ≤ s.params.forward_speed → s.params.floored = s.params) := by
  refine ⟨rfl, rfl, waypointCall_params E s a, rfl, rfl, rfl, fun hfs => ?_⟩
  unfold DeepstallParameters.floored
  rw [MAX_eq_left _ _ hfs]

/-- Counterexample to C21: with `forward_speed = 0`, one call of
`predictDistanceTraveled` leaves `forward_speed = 1/10`. -/
theorem predictDistanceTraveled_raises_forward_speed :
    (DeepStall.withSpeeds 0 6 0 0 : DeepStall ℚ).params.forward_speed = 0 ∧
    (DeepStall.predictDistanceTraveled (Env.idle : Env ℚ) (DeepStall.withSpeeds 0 6 0 0)
      ⟨0, 0, 0⟩ 0).2.params.forward_speed = 1 / 10 ∧
    (DeepStall.predictDistanceTraveled (Env.idle : Env ℚ) (DeepStall.withSpeeds 0 6 0 0)
      ⟨0, 0, 0⟩ 0).2.params ≠ (DeepStall.withSpeeds 0 6 0 0 : DeepStall ℚ).params := by
  have h1 : (DeepStall.predictDistanceTraveled (Env.idle : Env ℚ) (DeepStall.withSpeeds 0 6 0 0)
      ⟨0, 0, 0⟩ 0).2.params.forward_speed = 1 / 10 := by
    show MAX (0 : ℚ) (1 / 10) = 1 / 10
    unfold MAX
    norm_num
  refine ⟨rfl, h1, fun hc => ?_⟩
  have h2 := congrArg DeepstallParameters.forward_speed hc
  rw [h1] at h2
  have h3 : (DeepStall.withSpeeds 0 6 0 0 : DeepStall ℚ).params.forward_speed = 0 := rfl
  rw [h3] at h2
  norm_num at h2

/-! ### C22 -/

/-- C22: `abort()` is idempotent: for every object, the object after two calls
of `abort()` in a row is the object after one. -/
theorem abort_idempotent (s : DeepStall F) : s.abort.abort = s.abort := rfl

/-! ### C24 -/

/-- C24: for every object in stage `APPROACH` and every input, with `entry` the
landing point moved `predictDistanceTraveled(wind, deltah)` m along the target
heading + 180, `getApproachWaypoint` writes `extended_approach` to the target in
all cases; if the current location has passed `loiter_exit` to `entry` the stage
becomes `LAND` (whatever the overshoot test says); otherwise, if it has passed
`loiter` to `extended_approach`, the stage becomes `FLY_TO_LOITER` and
`loiter_sum_cd` becomes 0; otherwise the stage stays `APPROACH`. -/
theorem approach_stage_transitions (E : Env F) (s : DeepStall F) (a : WaypointArgs F)
    (hs : s.stage = STAGE.DEEPSTALL_APPROACH) :
    DeepStall.entryLoc E s a.wind a.deltah =
      E.location_update s.landing_point (s.targetHeading + 180)
        (DeepStall.predictDistanceTraveled E s a.wind a.deltah).1 ∧
    (DeepStall.waypointCall E s a).target = s.extended_approach ∧
    (E.location_passed_point a.current_loc s.loiter_exit
        (DeepStall.entryLoc E s a.wind a.deltah) = true →
      (DeepStall.waypointCall E s a).ret = STAGE.DEEPSTALL_LAND ∧
      (DeepStall.waypointCall E s a).self.stage = STAGE.DEEPSTALL_LAND) ∧
    (E.location_passed_point a.current_loc s.loiter_exit
        (DeepStall.entryLoc E s a.wind a.deltah) = false →
      E.location_passed_point a.current_loc s.loiter s.extended_approach = true →
      (DeepStall.waypointCall E s a).ret = STAGE.DEEPSTALL_FLY_TO_LOITER ∧
      (DeepStall.waypointCall E s a).self.stage = STAGE.DEEPSTALL_FLY_TO_LOITER ∧
      (DeepStall.waypointCall E s a).self.loiter_sum_cd = 0) ∧
    (E.location_passed_point a.current_loc s.loiter_exit
        (DeepStall.entryLoc E s a.wind a.deltah) = false →
      E.location_passed_point a.current_loc s.loiter s.extended_approach = false →
      (DeepStall.waypointCall E s a).ret = STAGE.DEEPSTALL_APPROACH ∧
      (DeepStall.waypointCall E s a).self.stage = STAGE.DEEPSTALL_APPROACH) := by
  unfold DeepStall.waypointCall
  rw [getApproachWaypoint_of_approach E s _ _ _ _ _ _ _ _ hs, caseApproach_eq]
  refine ⟨rfl, ?_, ?_, ?_, ?_⟩
  · split_ifs <;> rfl
  · intro h1
    rw [if_pos h1]
    exact ⟨rfl, rfl⟩
  · intro h1 h2
    rw [if_neg (by rw [h1]; exact Bool.false_ne_true), if_pos h2]
    exact ⟨rfl, rfl, rfl⟩
  · intro h1 h2
    rw [if_neg (by rw [h1]; exact Bool.false_ne_true),
      if_neg (by rw [h2]; exact Bool.false_ne_true)]
    exact ⟨hs, hs⟩

/-- Witness for C24: the object `DeepStall.overshot` in stage `APPROACH`, for
which only the test against `loiter` to `extended_approach` succeeds. -/
theorem approach_stage_transitions_witness :
    (DeepStall.overshot : DeepStall ℚ).stage = STAGE.DEEPSTALL_APPROACH ∧
    (DeepStall.waypointCall (Env.passedFromLat1 : Env ℚ) DeepStall.overshot
      WaypointArgs.blank).ret = STAGE.DEEPSTALL_FLY_TO_LOITER ∧
    (DeepStall.entryLoc (Env.passedFromLat1 : Env ℚ) DeepStall.overshot
        (WaypointArgs.blank : WaypointArgs ℚ).wind (WaypointArgs.blank : WaypointArgs ℚ).deltah =
      (Env.passedFromLat1 : Env ℚ).location_update (DeepStall.overshot : DeepStall ℚ).landing_point
        ((DeepStall.overshot : DeepStall ℚ).targetHeading + 180)
        (DeepStall.predictDistanceTraveled (Env.passedFromLat1 : Env ℚ) DeepStall.overshot
          (WaypointArgs.blank : WaypointArgs ℚ).wind
          (WaypointArgs.blank : WaypointArgs ℚ).deltah).1 ∧
    (DeepStall.waypointCall (Env.passedFromLat1 : Env ℚ) DeepStall.overshot
      WaypointArgs.blank).target = (DeepStall.overshot : DeepStall ℚ).extended_approach ∧
    ((Env.passedFromLat1 : Env ℚ).location_passed_point
        (WaypointArgs.blank : WaypointArgs ℚ).current_loc
        (DeepStall.overshot : DeepStall ℚ).loiter_exit
        (DeepStall.entryLoc (Env.passedFromLat1 : Env ℚ) DeepStall.overshot
          (WaypointArgs.blank : WaypointArgs ℚ).wind
          (WaypointArgs.blank : WaypointArgs ℚ).deltah) = true →
      (DeepStall.waypointCall (Env.passedFromLat1 : Env ℚ) DeepStall.overshot
        WaypointArgs.blank).ret = STAGE.DEEPSTALL_LAND ∧
      (DeepStall.waypointCall (Env.passedFromLat1 : Env ℚ) DeepStall.overshot
        WaypointArgs.blank).self.stage = STAGE.DEEPSTALL_LAND) ∧
    ((Env.passedFromLat1 : Env ℚ).location_passed_point
        (WaypointArgs.blank : WaypointArgs ℚ).current_loc
        (DeepStall.overshot : DeepStall ℚ).loiter_exit
        (DeepStall.entryLoc (Env.passedFromLat1 : Env ℚ) DeepStall.overshot
          (WaypointArgs.blank : WaypointArgs ℚ).wind
          (WaypointArgs.blank : WaypointArgs ℚ).deltah) = false →
      (Env.passedFromLat1 : Env ℚ).location_passed_point
        (WaypointArgs.blank : WaypointArgs ℚ).current_loc
        (DeepStall.overshot : DeepStall ℚ).loiter
        (DeepStall.overshot : DeepStall ℚ).extended_approach = true →
      (DeepStall.waypointCall (Env.passedFromLat1 : Env ℚ) DeepStall.overshot
        WaypointArgs.blank).ret = STAGE.DEEPSTALL_FLY_TO_LOITER ∧
      (DeepStall.waypointCall (Env.passedFromLat1 : Env ℚ) DeepStall.overshot
        WaypointArgs.blank).self.stage = STAGE.DEEPSTALL_FLY_TO_LOITER ∧
      (DeepStall.waypointCall (Env.passedFromLat1 : Env ℚ) DeepStall.overshot
        WaypointArgs.blank).self.loiter_sum_cd = 0) ∧
    ((Env.passedFromLat1 : Env ℚ).location_passed_point
        (WaypointArgs.blank : WaypointArgs ℚ).current_loc
        (DeepStall.overshot : DeepStall ℚ).loiter_exit
        (DeepStall.entryLoc (Env.passedFromLat1 : Env ℚ) DeepStall.overshot
          (WaypointArgs.blank : WaypointArgs ℚ).wind
          (WaypointArgs.blank : WaypointArgs ℚ).deltah) = false →
      (Env.passedFromLat1 : Env ℚ).location_passed_point
        (WaypointArgs.blank : WaypointArgs ℚ).current_loc
        (DeepStall.overshot : DeepStall ℚ).loiter
        (DeepStall.overshot : DeepStall ℚ).extended_approach = false →
      (DeepStall.waypointCall (Env.passedFromLat1 : Env ℚ) DeepStall.overshot
        WaypointArgs.blank).ret = STAGE.DEEPSTALL_APPROACH ∧
      (DeepStall.waypointCall (Env.passedFromLat1 : Env ℚ) DeepStall.overshot
        WaypointArgs.blank).self.stage = STAGE.DEEPSTALL_APPROACH)) :=
  ⟨rfl, by decide,
    approach_stage_transitions Env.passedFromLat1 DeepStall.overshot WaypointArgs.blank rfl⟩

/-! ### C25 -/

/-- C25: for every object in stage `FLY_TO_LOITER` and every input, if the
distance from the current location to the landing location exceeds 500 m, or
the distance to the stored loiter point exceeds `2 * loiter_radius`,
`getApproachWaypoint` returns `FLY_TO_LOITER`, writes the stored loiter point to
the target and leaves the object as it was; otherwise the stage is set to
`LOITER` and the call is the block `case DEEPSTALL_LOITER` run on that object. -/
theorem fly_to_loiter_gate (E : Env F) (s : DeepStall F) (a : WaypointArgs F)
    (hs : s.stage = STAGE.DEEPSTALL_FLY_TO_LOITER) :
    ((E.get_distance a.current_loc a.land_loc > 500 ∨
        E.get_distance a.current_loc s.loiter > 2 * a.loiter_radius) →
      (DeepStall.waypointCall E s a).ret = STAGE.DEEPSTALL_FLY_TO_LOITER ∧
      (DeepStall.waypointCall E s a).target = s.loiter ∧
      (DeepStall.waypointCall E s a).self = s) ∧
    (¬ (E.get_distance a.current_loc a.land_loc > 500 ∨
        E.get_distance a.current_loc s.loiter > 2 * a.loiter_radius) →
      ({ s with stage := STAGE.DEEPSTALL_LOITER } : DeepStall F).stage = STAGE.DEEPSTALL_LOITER ∧
      DeepStall.waypointCall E s a =
        DeepStall.caseLoiter E { s with stage := STAGE.DEEPSTALL_LOITER } a.land_loc
          a.current_loc a.wind a.deltah a.heading_cd a.nav a.loiter_radius a.heading) := by
  unfold DeepStall.waypointCall
  rw [getApproachWaypoint_of_fly E s _ _ _ _ _ _ _ _ hs]
  constructor
  · intro h
    by_cases h1 : E.get_distance a.current_loc a.land_loc > 500
    · rw [if_pos h1]
      exact ⟨rfl, rfl, rfl⟩
    · rw [if_neg h1, if_pos (h.resolve_left h1)]
      exact ⟨rfl, rfl, rfl⟩
  · intro h
    rw [if_neg (fun h1 => h (Or.inl h1)), if_neg (fun h2 => h (Or.inr h2))]
    exact ⟨rfl, rfl⟩

/-- Witness for C25: the zeroed object, in stage `FLY_TO_LOITER`. -/
theorem fly_to_loiter_gate_witness :
    (DeepStall.blank : DeepStall ℚ).stage = STAGE.DEEPSTALL_FLY_TO_LOITER ∧
    ((((Env.idle : Env ℚ).get_distance (WaypointArgs.blank : WaypointArgs ℚ).current_loc
          (WaypointArgs.blank : WaypointArgs ℚ).land_loc > 500 ∨
        (Env.idle : Env ℚ).get_distance (WaypointArgs.blank : WaypointArgs ℚ).current_loc
          (DeepStall.blank : DeepStall ℚ).loiter >
            2 * (WaypointArgs.blank : WaypointArgs ℚ).loiter_radius) →
      (DeepStall.waypointCall (Env.idle : Env ℚ) DeepStall.blank WaypointArgs.blank).ret =
        STAGE.DEEPSTALL_FLY_TO_LOITER ∧
      (DeepStall.waypointCall (Env.idle : Env ℚ) DeepStall.blank WaypointArgs.blank).target =
        (DeepStall.blank : DeepStall ℚ).loiter ∧
      (DeepStall.waypointCall (Env.idle : Env ℚ) DeepStall.blank WaypointArgs.blank).self =
        DeepStall.blank) ∧
    (¬ ((Env.idle : Env ℚ).get_distance (WaypointArgs.blank : WaypointArgs ℚ).current_loc
          (WaypointArgs.blank : WaypointArgs ℚ).land_loc > 500 ∨
        (Env.idle : Env ℚ).get_distance (WaypointArgs.blank : WaypointArgs ℚ).current_loc
          (DeepStall.blank : DeepStall ℚ).loiter >
            2 * (WaypointArgs.blank : WaypointArgs ℚ).loiter_radius) →
      ({ (DeepStall.blank : DeepStall ℚ) with stage := STAGE.DEEPSTALL_LOITER } :
        DeepStall ℚ).stage = STAGE.DEEPSTALL_LOITER ∧
      DeepStall.waypointCall (Env.idle : Env ℚ) DeepStall.blank WaypointArgs.blank =
        DeepStall.caseLoiter (Env.idle : Env ℚ)
          { (DeepStall.blank : DeepStall ℚ) with stage := STAGE.DEEPSTALL_LOITER }
          (WaypointArgs.blank : WaypointArgs ℚ).land_loc
          (WaypointArgs.blank : WaypointArgs ℚ).current_loc
          (WaypointArgs.blank : WaypointArgs ℚ).wind
          (WaypointArgs.blank : WaypointArgs ℚ).deltah
          (WaypointArgs.blank : WaypointArgs ℚ).heading_cd
          (WaypointArgs.blank : WaypointArgs ℚ).nav
          (WaypointArgs.blank : WaypointArgs ℚ).loiter_radius
          (WaypointArgs.blank : WaypointArgs ℚ).heading)) :=
  ⟨rfl, fly_to_loiter_gate Env.idle DeepStall.blank WaypointArgs.blank rfl⟩

/-! ### C26 -/

/-- What the block `case DEEPSTALL_APPROACH` leaves in the loiter bookkeeping:
`old_target_bearing_cd` is kept, and `loiter_sum_cd` is kept or, on the
overshoot fallback, set to 0. -/
theorem caseApproach_loiter_members (E : Env F) (m : DeepStall F) (cur : Location)
    (w : Vector3f F) (d : F) :
    (DeepStall.caseApproach E m cur w d).self.old_target_bearing_cd = m.old_target_bearing_cd ∧
    ((DeepStall.caseApproach E m cur w d).self.loiter_sum_cd = m.loiter_sum_cd ∨
      (DeepStall.overshootFallback E m cur w d ∧
        (DeepStall.caseApproach E m cur w d).self.loiter_sum_cd = 0)) := by
  rw [caseApproach_eq]
  unfold DeepStall.overshootFallback
  split_ifs with h1 h2
  · exact ⟨rfl, Or.inl rfl⟩
  · exact ⟨rfl, Or.inr ⟨⟨by simpa using h1, h2⟩, rfl⟩⟩
  · exact ⟨rfl, Or.inl rfl⟩

/-- C26: for every object in stage `LOITER`, with `b` the target bearing of the
navigation controller.  If the loiter target is not reached,
`getApproachWaypoint` sets `loiter_sum_cd` to 0, records
`old_target_bearing_cd = b`, writes `loiter` to the target and stays in
`LOITER`.  If it is reached, `loiter_sum_cd` is first raised by
`wrap_180_cd(b - old_target_bearing_cd)` and `old_target_bearing_cd` set to `b`,
and the breakout test is evaluated on that updated object: when it fails the
call leaves exactly that object, in `LOITER` with target `loiter`; when it
succeeds the call continues in the approach block on the object the breakout
leaves, `old_target_bearing_cd` stays `b`, and `loiter_sum_cd` stays the updated
sum unless the overshoot fallback resets it to 0. -/
theorem loiter_progress_and_breakout (E : Env F) (s : DeepStall F) (a : WaypointArgs F)
    (hs : s.stage = STAGE.DEEPSTALL_LOITER) :
    (a.nav.reached_loiter_target = false →
      (DeepStall.waypointCall E s a).self.loiter_sum_cd = 0 ∧
      (DeepStall.waypointCall E s a).self.old_target_bearing_cd = a.nav.target_bearing_cd ∧
      (DeepStall.waypointCall E s a).target = s.loiter ∧
      (DeepStall.waypointCall E s a).ret = STAGE.DEEPSTALL_LOITER ∧
      (DeepStall.waypointCall E s a).self.stage = STAGE.DEEPSTALL_LOITER) ∧
    (a.nav.reached_loiter_target = true →
      (DeepStall.loiterProgress E s a.nav).loiter_sum_cd =
        s.loiter_sum_cd + E.wrap_180_cd (a.nav.target_bearing_cd - s.old_target_bearing_cd) ∧
      (DeepStall.loiterProgress E s a.nav).old_target_bearing_cd = a.nav.target_bearing_cd ∧
      (DeepStall.verify_loiter_breakout E (DeepStall.loiterProgress E s a.nav) a.current_loc
          a.heading_cd = false →
        (DeepStall.waypointCall E s a).self = DeepStall.loiterProgress E s a.nav ∧
        (DeepStall.waypointCall E s a).target = s.loiter ∧
        (DeepStall.waypointCall E s a).ret = STAGE.DEEPSTALL_LOITER ∧
        (DeepStall.waypointCall E s a).self.stage = STAGE.DEEPSTALL_LOITER) ∧
      (DeepStall.verify_loiter_breakout E (DeepStall.loiterProgress E s a.nav) a.current_loc
          a.heading_cd = true →
        DeepStall.waypointCall E s a =
          DeepStall.caseApproach E
            (DeepStall.breakout E (DeepStall.loiterProgress E s a.nav) a.land_loc a.wind
              a.deltah a.loiter_radius a.heading) a.current_loc a.wind a.deltah ∧
        (DeepStall.waypointCall E s a).self.old_target_bearing_cd = a.nav.target_bearing_cd ∧
        ((DeepStall.waypointCall E s a).self.loiter_sum_cd =
            s.loiter_sum_cd +
              E.wrap_180_cd (a.nav.target_bearing_cd - s.old_target_bearing_cd) ∨
          (DeepStall.overshootFallback E
              (DeepStall.breakout E (DeepStall.loiterProgress E s a.nav) a.land_loc a.wind
                a.deltah a.loiter_radius a.heading) a.current_loc a.wind a.deltah ∧
            (DeepStall.waypointCall E s a).self.loiter_sum_cd = 0)))) := by
  unfold DeepStall.waypointCall
  rw [getApproachWaypoint_of_loiter E s _ _ _ _ _ _ _ _ hs, caseLoiter_eq]
  constructor
  · intro hr
    rw [if_neg (by rw [hr]; exact Bool.false_ne_true)]
    exact ⟨rfl, rfl, rfl, hs, hs⟩
  · intro hr
    rw [if_pos hr]
    refine ⟨rfl, rfl, ?_, ?_⟩
    · intro hv
      rw [if_neg (by rw [hv]; exact Bool.false_ne_true)]
      exact ⟨rfl, rfl, hs, hs⟩
    · intro hv
      rw [if_pos hv]
      have hm := caseApproach_loiter_members E
        (DeepStall.breakout E (DeepStall.loiterProgress E s a.nav) a.land_loc a.wind a.deltah
          a.loiter_radius a.heading) a.current_loc a.wind a.deltah
      have hb := breakout_frame E (DeepStall.loiterProgress E s a.nav) a.land_loc a.wind
        a.deltah a.loiter_radius a.heading
      refine ⟨rfl, ?_, ?_⟩
      · rw [hm.1, hb.2.2.1]
        rfl
      · rcases hm.2 with h1 | ⟨h1, h2⟩
        · left
          rw [h1, hb.2.1]
          rfl
        · right
          exact ⟨h1, h2⟩

/-- Witness for C26: the object `DeepStall.loitering` in stage `LOITER`; with the
loiter target not reached its progress is reset to 0. -/
theorem loiter_progress_and_breakout_witness :
    ((DeepStall.loitering : DeepStall ℚ).stage = STAGE.DEEPSTALL_LOITER ∧
      (DeepStall.waypointCall (Env.idle : Env ℚ) DeepStall.loitering
        WaypointArgs.blank).self.loiter_sum_cd = 0 ∧
      (DeepStall.waypointCall (Env.idle : Env ℚ) DeepStall.loitering
        WaypointArgs.reached).ret = STAGE.DEEPSTALL_APPROACH) ∧
    ∀ a : WaypointArgs ℚ,
    (a.nav.reached_loiter_target = false →
      (DeepStall.waypointCall (Env.idle : Env ℚ) DeepStall.loitering a).self.loiter_sum_cd = 0 ∧
      (DeepStall.waypointCall (Env.idle : Env ℚ) DeepStall.loitering a).self.old_target_bearing_cd
        = a.nav.target_bearing_cd ∧
      (DeepStall.waypointCall (Env.idle : Env ℚ) DeepStall.loitering a).target =
        (DeepStall.loitering : DeepStall ℚ).loiter ∧
      (DeepStall.waypointCall (Env.idle : Env ℚ) DeepStall.loitering a).ret =
        STAGE.DEEPSTALL_LOITER ∧
      (DeepStall.waypointCall (Env.idle : Env ℚ) DeepStall.loitering a).self.stage =
        STAGE.DEEPSTALL_LOITER) ∧
    (a.nav.reached_loiter_target = true →
      (DeepStall.loiterProgress (Env.idle : Env ℚ) DeepStall.loitering a.nav).loiter_sum_cd =
        (DeepStall.loitering : DeepStall ℚ).loiter_sum_cd +
          (Env.idle : Env ℚ).wrap_180_cd
            (a.nav.target_bearing_cd - (DeepStall.loitering : DeepStall ℚ).old_target_bearing_cd) ∧
      (DeepStall.loiterProgress (Env.idle : Env ℚ) DeepStall.loitering a.nav).old_target_bearing_cd
        = a.nav.target_bearing_cd ∧
      (DeepStall.verify_loiter_breakout (Env.idle : Env ℚ)
          (DeepStall.loiterProgress (Env.idle : Env ℚ) DeepStall.loitering a.nav) a.current_loc
          a.heading_cd = false →
        (DeepStall.waypointCall (Env.idle : Env ℚ) DeepStall.loitering a).self =
          DeepStall.loiterProgress (Env.idle : Env ℚ) DeepStall.loitering a.nav ∧
        (DeepStall.waypointCall (Env.idle : Env ℚ) DeepStall.loitering a).target =
          (DeepStall.loitering : DeepStall ℚ).loiter ∧
        (DeepStall.waypointCall (Env.idle : Env ℚ) DeepStall.loitering a).ret =
          STAGE.DEEPSTALL_LOITER ∧
        (DeepStall.waypointCall (Env.idle : Env ℚ) DeepStall.loitering a).self.stage =
          STAGE.DEEPSTALL_LOITER) ∧
      (DeepStall.verify_loiter_breakout (Env.idle : Env ℚ)
          (DeepStall.loiterProgress (Env.idle : Env ℚ) DeepStall.loitering a.nav) a.current_loc
          a.heading_cd = true →
        DeepStall.waypointCall (Env.idle : Env ℚ) DeepStall.loitering a =
          DeepStall.caseApproach (Env.idle : Env ℚ)
            (DeepStall.breakout (Env.idle : Env ℚ)
              (DeepStall.loiterProgress (Env.idle : Env ℚ) DeepStall.loitering a.nav) a.land_loc
              a.wind a.deltah a.loiter_radius a.heading) a.current_loc a.wind a.deltah ∧
        (DeepStall.waypointCall (Env.idle : Env ℚ) DeepStall.loitering
          a).self.old_target_bearing_cd = a.nav.target_bearing_cd ∧
        ((DeepStall.waypointCall (Env.idle : Env ℚ) DeepStall.loitering a).self.loiter_sum_cd =
            (DeepStall.loitering : DeepStall ℚ).loiter_sum_cd +
              (Env.idle : Env ℚ).wrap_180_cd
                (a.nav.target_bearing_cd -
                  (DeepStall.loitering : DeepStall ℚ).old_target_bearing_cd) ∨
          (DeepStall.overshootFallback (Env.idle : Env ℚ)
              (DeepStall.breakout (Env.idle : Env ℚ)
                (DeepStall.loiterProgress (Env.idle : Env ℚ) DeepStall.loitering a.nav)
                a.land_loc a.wind a.deltah a.loiter_radius a.heading) a.current_loc a.wind
              a.deltah ∧
            (DeepStall.waypointCall (Env.idle : Env ℚ) DeepStall.loitering a).self.loiter_sum_cd
              = 0)))) :=
  ⟨⟨rfl, by decide, by decide⟩,
    fun a => loiter_progress_and_breakout Env.idle DeepStall.loitering a rfl⟩

/-! ### C27 -/

/-- C27: for every object, current location and heading, a call of
`verify_loiter_breakout` leaves the object as it was, and it returns true only
if the wrapped difference between the bearing from the current location to
`extended_approach` and the given heading is at most 1000 centidegrees in
absolute value and the current altitude differs from the loiter altitude by
less than 500 cm. -/
theorem verify_loiter_breakout_requires (E : Env F) (s : DeepStall F) (cur : Location)
    (hcd : Int) :
    (DeepStall.verify_loiter_breakout_call E s cur hcd).2 = s ∧
    ((DeepStall.verify_loiter_breakout_call E s cur hcd).1 = true →
      |E.wrap_180_cd (E.get_bearing_cd cur s.extended_approach - hcd)| ≤ 1000 ∧
      |cur.alt - s.loiter.alt| < 500) := by
  refine ⟨rfl, fun h => ?_⟩
  have h1 := (verify_loiter_breakout_iff E s cur hcd).mp h
  exact ⟨h1.2.1, by rw [abs_sub_comm]; exact h1.2.2⟩

/-! ### C28 -/

theorem constrain_float_bounds (v lo hi : F) (h : lo ≤ hi) :
    lo ≤ constrain_float v lo hi ∧ constrain_float v lo hi ≤ hi := by
  unfold constrain_float
  split_ifs with h1 h2
  · exact ⟨le_refl _, h⟩
  · exact ⟨h, le_refl _⟩
  · exact ⟨not_lt.mp h1, not_lt.mp h2⟩

/-- After `land()` with `l1_i > 0` the integrator is within `[-1/2, 1/2]`, and
with `l1_i ≤ 0` it is as it was. -/
theorem land_l1_xtrack_i (E : Env F) (s : DeepStall F) (tnow : Nat) (track yawrate : F)
    (cur : Location) :
    (0 < s.params.l1_i →
      -(1 / 2) ≤ (DeepStall.land E s tnow track yawrate cur).l1_xtrack_i ∧
      (DeepStall.land E s tnow track yawrate cur).l1_xtrack_i ≤ 1 / 2) ∧
    (¬ 0 < s.params.l1_i →
      (DeepStall.land E s tnow track yawrate cur).l1_xtrack_i = s.l1_xtrack_i) := by
  have hl : (DeepStall.land E s tnow track yawrate cur).l1_xtrack_i =
      DeepStall.land_xtrack_i E s (DeepStall.land_dt s._last_t tnow) cur := rfl
  rw [hl]
  unfold DeepStall.land_xtrack_i
  constructor
  · intro h
    rw [if_pos h]
    have hb := constrain_float_bounds
      (s.l1_xtrack_i + DeepStall.land_nu1 E s cur * s.params.l1_i *
        (1 / ((DeepStall.land_dt s._last_t tnow : Nat) : F)))
      (-(5 / 10)) (5 / 10) (by norm_num)
    have e : (5 : F) / 10 = 1 / 2 := by norm_num
    constructor
    · calc -(1 / 2 : F) = -(5 / 10) := by rw [e]
        _ ≤ _ := hb.1
    · calc _ ≤ (5 / 10 : F) := hb.2
        _ = 1 / 2 := e
  · intro h
    rw [if_neg h]

theorem caseApproach_l1_xtrack_i (E : Env F) (m : DeepStall F) (cur : Location)
    (w : Vector3f F) (d : F) :
    (DeepStall.caseApproach E m cur w d).self.l1_xtrack_i = m.l1_xtrack_i := by
  rw [caseApproach_eq]
  split_ifs <;> rfl

theorem caseLoiter_l1_xtrack_i (E : Env F) (s : DeepStall F) (l cur : Location)
    (w : Vector3f F) (d : F) (hcd : Int) (nav : AP_Navigation) (r h : F) :
    (DeepStall.caseLoiter E s l cur w d hcd nav r h).self.l1_xtrack_i = s.l1_xtrack_i := by
  rw [caseLoiter_eq]
  split_ifs
  · rw [caseApproach_l1_xtrack_i, (breakout_frame E _ l w d r h).2.2.2]
    rfl
  · rfl
  · rfl

theorem waypointCall_l1_xtrack_i (E : Env F) (s : DeepStall F) (a : WaypointArgs F) :
    (DeepStall.waypointCall E s a).self.l1_xtrack_i = s.l1_xtrack_i := by
  unfold DeepStall.waypointCall
  cases hs : s.stage with
  | DEEPSTALL_FLY_TO_LOITER =>
    rw [getApproachWaypoint_of_fly E s _ _ _ _ _ _ _ _ hs]
    split_ifs
    · rfl
    · rfl
    · exact caseLoiter_l1_xtrack_i E { s with stage := STAGE.DEEPSTALL_LOITER } _ _ _ _ _ _ _ _
  | DEEPSTALL_LOITER =>
    rw [getApproachWaypoint_of_loiter E s _ _ _ _ _ _ _ _ hs]
    exact caseLoiter_l1_xtrack_i E s _ _ _ _ _ _ _ _
  | DEEPSTALL_APPROACH =>
    rw [getApproachWaypoint_of_approach E s _ _ _ _ _ _ _ _ hs]
    exact caseApproach_l1_xtrack_i E s _ _ _
  | DEEPSTALL_LAND =>
    rw [getApproachWaypoint_of_land E s _ _ _ _ _ _ _ _ hs]

/-- C28: in every object reachable from an `abort()` by calls of `land()` and
`getApproachWaypoint()` with any arguments, and with any parameter values, the
cross-track integrator satisfies `-1/2 ≤ l1_xtrack_i ≤ 1/2`; and after a
`land()` call with `l1_i > 0` on any object whatever, the stored `l1_xtrack_i`
lies in `[-1/2, 1/2]`. -/
theorem l1_xtrack_i_bounded (E : Env F) (s : DeepStall F)
    (h : DeepStall.ReachableFromAbort E s) :
    (-(1 / 2) ≤ s.l1_xtrack_i ∧ s.l1_xtrack_i ≤ 1 / 2) ∧
    ∀ (s0 : DeepStall F) (tnow : Nat) (track yawrate : F) (cur : Location),
      0 < s0.params.l1_i →
      -(1 / 2) ≤ (DeepStall.land E s0 tnow track yawrate cur).l1_xtrack_i ∧
      (DeepStall.land E s0 tnow track yawrate cur).l1_xtrack_i ≤ 1 / 2 := by
  refine ⟨?_, fun s0 tnow track yawrate cur h0 => (land_l1_xtrack_i E s0 tnow track yawrate cur).1 h0⟩
  induction h with
  | abort s0 =>
    show -(1 / 2) ≤ (0 : F) ∧ (0 : F) ≤ 1 / 2
    constructor <;> norm_num
  | @land s1 tnow track yawrate cur _ ih =>
    by_cases hl : 0 < s1.params.l1_i
    · exact (land_l1_xtrack_i E s1 tnow track yawrate cur).1 hl
    · rw [(land_l1_xtrack_i E s1 tnow track yawrate cur).2 hl]
      exact ih
  | getApproachWaypoint a _ ih =>
    rw [waypointCall_l1_xtrack_i]
    exact ih
  | setParams p _ ih => exact ih

/-- Witness for C28: the constructed object after `abort()` (which loads
`l1_i = 0.05`) and one `land()` call at clock 5. -/
theorem l1_xtrack_i_bounded_witness :
    DeepStall.ReachableFromAbort (Env.idle : Env ℚ)
      (DeepStall.land Env.idle (DeepStall.construct DeepStall.blank).abort 5 0 0 ⟨0, 0, 0⟩) ∧
    ((-(1 / 2) ≤ (DeepStall.land (Env.idle : Env ℚ) (DeepStall.construct DeepStall.blank).abort
          5 0 0 ⟨0, 0, 0⟩).l1_xtrack_i ∧
      (DeepStall.land (Env.idle : Env ℚ) (DeepStall.construct DeepStall.blank).abort
          5 0 0 ⟨0, 0, 0⟩).l1_xtrack_i ≤ 1 / 2) ∧
    ∀ (s0 : DeepStall ℚ) (tnow : Nat) (track yawrate : ℚ) (cur : Location),
      0 < s0.params.l1_i →
      -(1 / 2) ≤ (DeepStall.land (Env.idle : Env ℚ) s0 tnow track yawrate cur).l1_xtrack_i ∧
      (DeepStall.land (Env.idle : Env ℚ) s0 tnow track yawrate cur).l1_xtrack_i ≤ 1 / 2) :=
  ⟨.land _ _ _ _ (.abort _),
    l1_xtrack_i_bounded Env.idle _ (.land _ _ _ _ (.abort _))⟩

/-! ### C29 -/

theorem caseApproach_path (E : Env F) (m : DeepStall F) (cur : Location) (w : Vector3f F)
    (d : F) : (DeepStall.caseApproach E m cur w d).self.path = m.path := by
  rw [caseApproach_eq]
  split_ifs <;> rfl

/-- Without a breakout the block `case DEEPSTALL_LOITER` keeps the four points. -/
theorem caseLoiter_path (E : Env F) (s : DeepStall F) (l cur : Location) (w : Vector3f F)
    (d : F) (hcd : Int) (nav : AP_Navigation) (r h : F)
    (hn : ¬ (nav.reached_loiter_target = true ∧
      DeepStall.verify_loiter_breakout E (DeepStall.loiterProgress E s nav) cur hcd = true)) :
    (DeepStall.caseLoiter E s l cur w d hcd nav r h).self.path = s.path := by
  rw [caseLoiter_eq]
  split_ifs with h1 h2
  · exact absurd ⟨h1, h2⟩ hn
  · rfl
  · rfl

/-- C29: for every object and input, `getApproachWaypoint` leaves `landing_point`,
`extended_approach`, `loiter` and `loiter_exit` as they were unless the call
started in `FLY_TO_LOITER` or `LOITER` and took the breakout branch
(`verify_loiter_breakout` returned true during it); `land()` and `abort()`
never change these four points or the target heading. -/
theorem path_recomputed_only_at_breakout (E : Env F) (s : DeepStall F) (a : WaypointArgs F)
    (tnow : Nat) (track yawrate : F) (cur : Location) :
    ((¬ ∃ m : DeepStall F, DeepStall.breaksOut E s a m) →
      (DeepStall.waypointCall E s a).self.landing_point = s.landing_point ∧
      (DeepStall.waypointCall E s a).self.extended_approach = s.extended_approach ∧
      (DeepStall.waypointCall E s a).self.loiter = s.loiter ∧
      (DeepStall.waypointCall E s a).self.loiter_exit = s.loiter_exit) ∧
    ((DeepStall.land E s tnow track yawrate cur).path = s.path ∧
      (DeepStall.land E s tnow track yawrate cur).targetHeading = s.targetHeading) ∧
    (s.abort.path = s.path ∧ s.abort.targetHeading = s.targetHeading) := by
  refine ⟨fun hn => ?_, ⟨rfl, rfl⟩, ⟨rfl, rfl⟩⟩
  have hp : (DeepStall.waypointCall E s a).self.path = s.path := by
    unfold DeepStall.waypointCall
    cases hs : s.stage with
    | DEEPSTALL_FLY_TO_LOITER =>
      rw [getApproachWaypoint_of_fly E s _ _ _ _ _ _ _ _ hs]
      by_cases h1 : E.get_distance a.current_loc a.land_loc > 500
      · rw [if_pos h1]
      · rw [if_neg h1]
        by_cases h2 : E.get_distance a.current_loc s.loiter > 2 * a.loiter_radius
        · rw [if_pos h2]
        · rw [if_neg h2]
          exact caseLoiter_path E { s with stage := STAGE.DEEPSTALL_LOITER } _ _ _ _ _ _ _ _
            (fun hb => hn ⟨_, Or.inr ⟨hs, h1, h2, rfl⟩, hb.1, hb.2⟩)
    | DEEPSTALL_LOITER =>
      rw [getApproachWaypoint_of_loiter E s _ _ _ _ _ _ _ _ hs]
      exact caseLoiter_path E s _ _ _ _ _ _ _ _
        (fun hb => hn ⟨_, Or.inl ⟨hs, rfl⟩, hb.1, hb.2⟩)
    | DEEPSTALL_APPROACH =>
      rw [getApproachWaypoint_of_approach E s _ _ _ _ _ _ _ _ hs]
      exact caseApproach_path E s _ _ _
    | DEEPSTALL_LAND =>
      rw [getApproachWaypoint_of_land E s _ _ _ _ _ _ _ _ hs]
  unfold DeepStall.path at hp
  simp only [Prod.mk.injEq] at hp
  exact hp

end Theorems3

/-! ### C23 -/

/-- Over the reals the first two divisors of `predictDistanceTraveled` are never
zero; the third is `descent_speed` itself. -/
theorem predictDivisors_real (dist : Location → Location → ℝ)
    (bearing : Location → Location → Int) (passed : Location → Location → Location → Bool)
    (s : DeepStall ℝ) (w : Vector3f ℝ) :
    ∃ a b : ℝ, a ≠ 0 ∧ b ≠ 0 ∧
      DeepStall.predictDivisors (Env.real dist bearing passed) s w =
        [a, b, s.params.descent_speed] := by
  refine ⟨_, _, ?_, ?_, rfl⟩
  · have h1 : (5 : ℝ) / 100 ≤
        MAX (Vector2f.length (Env.real dist bearing passed) ⟨w.x, w.y⟩) (5 / 100) :=
      le_MAX_right _ _
    have h2 : Vector2f.length (Env.real dist bearing passed)
        ⟨(Env.real dist bearing passed).cos (radians (Env.real dist bearing passed) s.targetHeading),
          (Env.real dist bearing passed).sin
            (radians (Env.real dist bearing passed) s.targetHeading)⟩ = 1 := by
      show Real.sqrt (Real.cos _ * Real.cos _ + Real.sin _ * Real.sin _) = 1
      rw [← sq, ← sq, Real.cos_sq_add_sin_sq, Real.sqrt_one]
    rw [h2, mul_one]
    intro h0
    rw [h0] at h1
    norm_num at h1
  · have h1 : (1 : ℝ) / 10 ≤ MAX s.params.forward_speed (1 / 10) := le_MAX_right _ _
    intro h0
    rw [h0] at h1
    norm_num at h1

/-- C23 (defect of the code): with `descent_speed = 0` the divisor of the returned
expression `estimated_forward * altitude / descent_speed` is zero; the other two
divisors are non-zero for every input. -/
theorem predictDistanceTraveled_divides_by_descent_speed :
    (DeepStall.withSpeeds 10 0 0 0 : DeepStall ℝ).params.descent_speed = 0 ∧
    (0 : ℝ) ∈ DeepStall.predictDivisors Env.realIdle (DeepStall.withSpeeds 10 0 0 0) ⟨0, 0, 0⟩ ∧
    ∀ (dist : Location → Location → ℝ) (bearing : Location → Location → Int)
      (passed : Location → Location → Location → Bool) (s : DeepStall ℝ) (w : Vector3f ℝ),
      ∃ a b : ℝ, a ≠ 0 ∧ b ≠ 0 ∧
        DeepStall.predictDivisors (Env.real dist bearing passed) s w =
          [a, b, s.params.descent_speed] := by
  refine ⟨rfl, ?_, predictDivisors_real⟩
  obtain ⟨a, b, _, _, h⟩ := predictDivisors_real (fun _ _ => 0) (fun _ _ => 0)
    (fun _ _ _ => false) (DeepStall.withSpeeds 10 0 0 0) ⟨0, 0, 0⟩
  have hr : DeepStall.predictDivisors Env.realIdle (DeepStall.withSpeeds 10 0 0 0) ⟨0, 0, 0⟩ =
      [a, b, (DeepStall.withSpeeds 10 0 0 0 : DeepStall ℝ).params.descent_speed] := h
  rw [hr]
  have hz : (DeepStall.withSpeeds 10 0 0 0 : DeepStall ℝ).params.descent_speed = 0 := rfl
  rw [hz]
  simp

/-! ### C30 -/

/-- C30: when no landing is in progress, for every landing type and whatever the
per-type functions are, `is_flaring`, `is_on_approach`, `is_expecting_impact`,
`control_servos`, `is_throttle_suppressed` and `get_target_altitude_location`
return false (leaving the object and the location argument as they were),
`is_ground_steering_allowed` returns true and `get_target_airspeed_cm` returns
the cruise airspeed; and `handle_flight_stage_change(b)` sets `in_progress` to
`b`, clears `commanded_go_around` and changes nothing else. -/
theorem not_in_progress_defaults {F S R : Type} (Q : LandingQueries F S R)
    (V : LandingSpeeds S) (l : AP_Landing S) (loc : Location) (b : Bool) :
    AP_Landing.is_flaring Q { l with in_progress := false } = false ∧
    AP_Landing.is_on_approach Q { l with in_progress := false } = false ∧
    AP_Landing.is_expecting_impact Q { l with in_progress := false } = false ∧
    AP_Landing.control_servos Q { l with in_progress := false } =
      (false, { l with in_progress := false }) ∧
    AP_Landing.is_throttle_suppressed V { l with in_progress := false } = false ∧
    AP_Landing.get_target_altitude_location Q { l with in_progress := false } loc =
      (false, loc, { l with in_progress := false }) ∧
    AP_Landing.is_ground_steering_allowed Q { l with in_progress := false } = true ∧
    AP_Landing.get_target_airspeed_cm V { l with in_progress := false } =
      (V.airspeed_cruise_cm, { l with in_progress := false }) ∧
    (AP_Landing.handle_flight_stage_change l b).in_progress = b ∧
    (AP_Landing.handle_flight_stage_change l b).commanded_go_around = false ∧
    (AP_Landing.handle_flight_stage_change l b).type = l.type ∧
    (AP_Landing.handle_flight_stage_change l b).members = l.members :=
  ⟨rfl, rfl, rfl, rfl, rfl, rfl, rfl, rfl, rfl, rfl, rfl, rfl⟩
